import Mathlib

/-!
# NewGRF sprite group resolution (newgrf_spritegroup.cpp)

A shallow embedding of the action-2 resolver: the adjustment evaluator
`EvalAdjustT`, the variable fetch `GetVariable`, the deterministic and
randomized node resolvers and the dispatch entry point `SpriteGroup::Resolve`.

Conventions.
* Unsigned machine integers are `Nat`, signed ones are `Int`; every conversion
  the C++ performs is an explicit reduction modulo a power of two.
* A pointer to a sprite group is an `Option Nat`: `none` is `nullptr`, `some p`
  is the group stored at slot `p` of the sprite group pool.
* Code with undefined behaviour (division by zero, signed overflow, a shift by
  32 or more, an index outside a vector) has no result: the embedding returns
  `none` there.
* The recursion of `SpriteGroup::Resolve` through child and subroutine pointers
  is bounded by a recursion budget; `none` is also the outcome when the budget is
  exhausted (a cyclic group graph has no result for any budget).
-/

namespace OpenTTD

/-! ## Machine integers -/

/-- Evaluation width of a deterministic group (`DSG_SIZE_BYTE`, `DSG_SIZE_WORD`, `DSG_SIZE_DWORD`). -/
inductive DeterministicSpriteGroupSize where
  | DSG_SIZE_BYTE
  | DSG_SIZE_WORD
  | DSG_SIZE_DWORD
  deriving DecidableEq, Repr

/-- Number of bits of the types `U` and `S` that `DeterministicSpriteGroup::Resolve`
instantiates `EvalAdjustT` with for each size. -/
def DeterministicSpriteGroupSize.bits : DeterministicSpriteGroupSize → Nat
  | .DSG_SIZE_BYTE => 8
  | .DSG_SIZE_WORD => 16
  | .DSG_SIZE_DWORD => 32

/-- Conversion of an integer to the unsigned type of `n` bits. -/
def toUnsigned (n : Nat) (x : Int) : Nat := (x % (2 : Int) ^ n).toNat

/-- Conversion of an integer to the signed (two's complement) type of `n` bits. -/
def toSigned (n : Nat) (x : Int) : Int :=
  if x % (2 : Int) ^ n < (2 : Int) ^ (n - 1) then x % (2 : Int) ^ n else x % (2 : Int) ^ n - (2 : Int) ^ n

/-- The cast `(U)x` for the width `w`. -/
def toU (w : DeterministicSpriteGroupSize) (x : Int) : Nat := toUnsigned w.bits x

/-- The cast `(S)x` for the width `w`. -/
def toS (w : DeterministicSpriteGroupSize) (x : Int) : Int := toSigned w.bits x

/-- Conversion to `uint32_t`. -/
def toU32 (x : Int) : Nat := toUnsigned 32 x

/-- Conversion to `uint8_t`. -/
def toU8 (x : Int) : Nat := toUnsigned 8 x

/-- A value of type `int` (32 bits): signed arithmetic whose result does not fit is undefined. -/
def checkInt (x : Int) : Option Int :=
  if -(2 : Int) ^ 31 ≤ x ∧ x < (2 : Int) ^ 31 then some x else none

/-- The `/` of two `int` operands: undefined for a zero divisor and for an unrepresentable quotient. -/
def intDiv (a b : Int) : Option Int :=
  if b = 0 then none else checkInt (Int.tdiv a b)

/-- The `%` of two `int` operands: undefined exactly where `/` is. -/
def intMod (a b : Int) : Option Int :=
  if b = 0 then none else (checkInt (Int.tdiv a b)).map (fun _ => Int.tmod a b)

/-- The call `std::rotr<uint32_t>(x, s)`. -/
def rotr32 (x : Nat) (s : Nat) : Nat :=
  if s % 32 = 0 then x % 2 ^ 32
  else ((x % 2 ^ 32) >>> (s % 32) ||| ((x % 2 ^ 32) <<< (32 - s % 32))) % 2 ^ 32

/-- Modelled from the spec: the bit-field helper `GB(x, s, n)` (core/bitmath_func.hpp is not part of
the sources), the `n` bits of `x` starting at bit `s`; the spec words its one use as
"the low 15 bits of the scalar". -/
def GB (x s n : Nat) : Nat := (x >>> s) &&& (2 ^ n - 1)

/-! ## Data model -/

/-- Operation of an adjustment; one constructor per `case` of the switch in `EvalAdjustT`.
`other` stands for any enumerator value that reaches `default:`. -/
inductive DeterministicSpriteGroupAdjustOperation where
  | DSGA_OP_ADD | DSGA_OP_SUB | DSGA_OP_SMIN | DSGA_OP_SMAX | DSGA_OP_UMIN | DSGA_OP_UMAX
  | DSGA_OP_SDIV | DSGA_OP_SMOD | DSGA_OP_UDIV | DSGA_OP_UMOD | DSGA_OP_MUL
  | DSGA_OP_AND | DSGA_OP_OR | DSGA_OP_XOR | DSGA_OP_STO | DSGA_OP_RST | DSGA_OP_STOP
  | DSGA_OP_ROR | DSGA_OP_SCMP | DSGA_OP_UCMP | DSGA_OP_SHL | DSGA_OP_SHR | DSGA_OP_SAR
  | other
  deriving DecidableEq, Repr

/-- Sub-mode of an adjustment (`adjust.type`). -/
inductive DeterministicSpriteGroupAdjustType where
  | DSGA_TYPE_NONE
  | DSGA_TYPE_DIV
  | DSGA_TYPE_MOD
  deriving DecidableEq, Repr

/-- One adjustment of a deterministic group. `var` is the member `variable` (a reserved word
here); `var`, `parameter` and `shift_num` are bytes, `and_mask`, `add_val` and `divmod_val` are
32-bit words, `subroutine` is a group pointer. -/
structure DeterministicSpriteGroupAdjust where
  operation : DeterministicSpriteGroupAdjustOperation
  type : DeterministicSpriteGroupAdjustType
  var : Nat
  parameter : Nat
  shift_num : Nat
  and_mask : Nat
  add_val : Nat
  divmod_val : Nat
  subroutine : Option Nat

/-- Outcome selected by a range or by default: a calculated result or a child group. -/
structure DeterministicSpriteGroupResult where
  calculated_result : Bool
  group : Option Nat
  deriving DecidableEq, Repr

/-- One range `[low, high]` of a deterministic group with the result it selects. -/
structure DeterministicSpriteGroupRange where
  result : DeterministicSpriteGroupResult
  low : Nat
  high : Nat
  deriving DecidableEq, Repr

/-- Scope selector of a group (`VarSpriteGroupScope`), as the integer of the enumerator. -/
abbrev VarSpriteGroupScope := Nat

/-- The deterministic group. -/
structure DeterministicSpriteGroup where
  var_scope : VarSpriteGroupScope
  size : DeterministicSpriteGroupSize
  adjusts : List DeterministicSpriteGroupAdjust
  ranges : List DeterministicSpriteGroupRange
  default_result : DeterministicSpriteGroupResult
  error_group : Option Nat

/-- Comparison mode of a randomized group. -/
inductive RandomizedSpriteGroupCompareMode where
  | RSG_CMP_ANY
  | RSG_CMP_ALL
  deriving DecidableEq, Repr

/-- The randomized group. `triggers`, `count` and `lowest_randbit` are bytes. -/
structure RandomizedSpriteGroup where
  var_scope : VarSpriteGroupScope
  cmp_mode : RandomizedSpriteGroupCompareMode
  triggers : Nat
  count : Nat
  lowest_randbit : Nat
  groups : List (Option Nat)

/-- The real sprite group: its loaded and loading alternatives. -/
structure RealSpriteGroup where
  loaded : List (Option Nat)
  loading : List (Option Nat)

/-- The node kinds reached through `group->Resolve(object)`. -/
inductive SpriteGroup where
  | Deterministic (g : DeterministicSpriteGroup)
  | Randomized (g : RandomizedSpriteGroup)
  | CallbackResult (result : Nat)
  | Real (g : RealSpriteGroup)
  | Terminal

/-- Result of a resolution (`ResolverResult`): nothing, a callback result, or a terminal group. -/
inductive ResolverResult where
  | monostate
  | callback (value : Nat)
  | group (p : Nat)
  deriving DecidableEq, Repr

/-- Storage of 32-bit signed slots addressed by position. -/
abbrev Storage := Nat → Int

/-- Modelled from the spec: the class `TemporaryStorageArray<int32_t, 0x110>` behind
`ResolverObject::temp_store` is not part of the sources. The spec describes it as a register file
of 0x110 signed 32-bit slots with indices 0..0x10F; a store outside that range is taken to change
nothing and a load outside it to give 0. -/
structure TemporaryStorageArray where
  storage : Storage

/-- Modelled from the spec: store `value` in slot `pos` of the register file. -/
def TemporaryStorageArray.StoreValue (t : TemporaryStorageArray) (pos : Nat) (value : Int) :
    TemporaryStorageArray :=
  if pos < 0x110 then { storage := fun i => if i = pos then value else t.storage i } else t

/-- Modelled from the spec: load slot `pos` of the register file. -/
def TemporaryStorageArray.GetValue (t : TemporaryStorageArray) (pos : Nat) : Int :=
  if pos < 0x110 then t.storage pos else 0

/-- A scope resolver: the four virtual methods of `ScopeResolver` and the persistent storage
its `StorePSA` writes. `GetVariable` receives the flag `available` and returns it with the value. -/
structure ScopeResolver where
  GetRandomBits : Nat
  GetRandomTriggers : Nat
  GetVariable : (var : Nat) → (parameter : Nat) → (available : Bool) → Storage → Nat × Bool
  StorePSA : Nat → Int → Storage → Storage
  psa : Storage

/-- The base class `ScopeResolver`: no random bits, no triggers, no variable, no storage. -/
def ScopeResolver.base (psa : Storage) : ScopeResolver where
  GetRandomBits := 0
  GetRandomTriggers := 0
  GetVariable := fun _ _ _ _ => (2 ^ 32 - 1, false)
  StorePSA := fun _ _ s => s
  psa := psa

/-- The mod file bound to a resolver object: its address and `GetParam`. -/
structure GRFFile where
  addr : Nat
  GetParam : Nat → Nat

/-- The resolver object. `scopes` holds its scope resolvers, `GetScope` and `ResolveReal` are
its virtual methods; `waiting_random_triggers` and `used_random_triggers` record the triggers. -/
structure ResolverObject where
  callback : Nat
  callback_param1 : Nat
  callback_param2 : Nat
  last_value : Nat
  grffile : Option GRFFile
  temp_store : TemporaryStorageArray
  reseed : VarSpriteGroupScope → Nat
  waiting_random_triggers : Nat
  used_random_triggers : Nat
  scopes : Nat → ScopeResolver
  GetScope : VarSpriteGroupScope → Nat → Nat
  ResolveReal : RealSpriteGroup → Option Nat

/-- Modelled from the spec: `ResolverObject::GetRegister` (declared outside the sources),
"read register at `parameter`". -/
def ResolverObject.GetRegister (object : ResolverObject) (i : Nat) : Int :=
  object.temp_store.GetValue i

/-- Modelled from the spec: `ResolverObject::SetRegister` (declared outside the sources), the
register write of the adjustment evaluator: slot `i` receives `value`. The first argument is the
position and the second the stored value, as for the sibling `ScopeResolver::StorePSA(uint, int32_t)`
that line 169 calls with the same two casts; the slots of `temp_store` are `int32_t` (line 21). -/
def ResolverObject.SetRegister (object : ResolverObject) (i : Nat) (value : Int) : ResolverObject :=
  { object with temp_store := object.temp_store.StoreValue i value }

/-- The call `scope->StorePSA(i, value)` on scope `scope` of the object. -/
def ResolverObject.StorePSA (object : ResolverObject) (scope : Nat) (i : Nat) (value : Int) :
    ResolverObject :=
  { object with
    scopes := fun k =>
      if k = scope then
        { object.scopes k with psa := (object.scopes k).StorePSA i value (object.scopes k).psa }
      else object.scopes k }

/-- Modelled from the spec: `ResolverObject::GetWaitingRandomTriggers` (declared outside the
sources), the context's waiting triggers. -/
def ResolverObject.GetWaitingRandomTriggers (object : ResolverObject) : Nat :=
  object.waiting_random_triggers

/-- Modelled from the spec: `ResolverObject::AddUsedRandomTriggers` (declared outside the
sources), "mark those matched trigger bits as consumed in the context". -/
def ResolverObject.AddUsedRandomTriggers (object : ResolverObject) (triggers : Nat) : ResolverObject :=
  { object with used_random_triggers := object.used_random_triggers ||| triggers }

/-- The default `ResolverObject::ResolveReal`: first loaded sprite, else first loading sprite. -/
def ResolveRealDefault (group : RealSpriteGroup) : Option Nat :=
  match group.loaded with
  | g :: _ => g
  | [] =>
    match group.loading with
    | g :: _ => g
    | [] => none

/-! ## The adjustment evaluator -/

/-- Lines 143-150 of `EvalAdjustT`: shift, mask and sub-mode applied to the fetched value. -/
def AdjustValue (w : DeterministicSpriteGroupSize) (adjust : DeterministicSpriteGroupAdjust)
    (value : Nat) : Option Nat :=
  if 32 ≤ adjust.shift_num then none
  else
    let value := (value % 2 ^ 32) >>> adjust.shift_num
    let value := value &&& adjust.and_mask
    match adjust.type with
    | .DSGA_TYPE_DIV =>
      (checkInt (toS w value + toS w adjust.add_val)).bind fun s =>
        (intDiv s (toS w adjust.divmod_val)).map toU32
    | .DSGA_TYPE_MOD =>
      (checkInt (toS w value + toS w adjust.add_val)).bind fun s =>
        (intMod s (toS w adjust.divmod_val)).map toU32
    | .DSGA_TYPE_NONE => some value

/-- Lines 152-177 of `EvalAdjustT`: the operation applied to `last_value` (of type `U`) and
`value` (32 bits); the result is converted to `U` by the `return`. -/
def EvalOperation (w : DeterministicSpriteGroupSize)
    (operation : DeterministicSpriteGroupAdjustOperation) (object : ResolverObject) (scope : Nat)
    (last_value : Nat) (value : Nat) : Option (Nat × ResolverObject) :=
  match operation with
  | .DSGA_OP_ADD => some (toU w (last_value + value), object)
  | .DSGA_OP_SUB => some (toU w ((last_value : Int) - value), object)
  | .DSGA_OP_SMIN => some (toU w (min (toS w last_value) (toS w value)), object)
  | .DSGA_OP_SMAX => some (toU w (max (toS w last_value) (toS w value)), object)
  | .DSGA_OP_UMIN => some (toU w (min (toU w last_value) (toU w value)), object)
  | .DSGA_OP_UMAX => some (toU w (max (toU w last_value) (toU w value)), object)
  | .DSGA_OP_SDIV =>
    if value = 0 then some (toU w (toS w last_value), object)
    else (intDiv (toS w last_value) (toS w value)).map fun r => (toU w r, object)
  | .DSGA_OP_SMOD =>
    if value = 0 then some (toU w (toS w last_value), object)
    else (intMod (toS w last_value) (toS w value)).map fun r => (toU w r, object)
  | .DSGA_OP_UDIV =>
    if value = 0 then some (toU w (toU w last_value), object)
    else if toU w value = 0 then none
    else some (toU w (toU w last_value / toU w value), object)
  | .DSGA_OP_UMOD =>
    if value = 0 then some (toU w (toU w last_value), object)
    else if toU w value = 0 then none
    else some (toU w (toU w last_value % toU w value), object)
  | .DSGA_OP_MUL => some (toU w (last_value * value), object)
  | .DSGA_OP_AND => some (toU w (last_value &&& value), object)
  | .DSGA_OP_OR => some (toU w (last_value ||| value), object)
  | .DSGA_OP_XOR => some (toU w (last_value ^^^ value), object)
  | .DSGA_OP_STO => some (last_value, object.SetRegister (toU w value) (toS w last_value))
  | .DSGA_OP_RST => some (toU w value, object)
  | .DSGA_OP_STOP => some (last_value, object.StorePSA scope (toU w value) (toS w last_value))
  | .DSGA_OP_ROR => some (toU w (rotr32 (toU w last_value) (toU w value &&& 0x1F)), object)
  | .DSGA_OP_SCMP =>
    some (toU w (if toS w last_value = toS w value then 1
      else if toS w last_value < toS w value then 0 else 2), object)
  | .DSGA_OP_UCMP =>
    some (toU w (if toU w last_value = toU w value then 1
      else if toU w last_value < toU w value then 0 else 2), object)
  | .DSGA_OP_SHL => some (toU w (toU32 (toU w last_value <<< (toU w value &&& 0x1F))), object)
  | .DSGA_OP_SHR => some (toU w (toU w last_value >>> (toU w value &&& 0x1F)), object)
  | .DSGA_OP_SAR => some (toU w (toS w last_value >>> (toU w value &&& 0x1F)), object)
  | .other => some (toU w value, object)

/-- The function `EvalAdjustT<U, S>` for the width `w`; `scope` is the scope pointer, as an index
into the scopes of `object`. The result is the returned value with the object after the call. -/
def EvalAdjustT (w : DeterministicSpriteGroupSize) (adjust : DeterministicSpriteGroupAdjust)
    (object : ResolverObject) (scope : Nat) (last_value : Nat) (value : Nat) :
    Option (Nat × ResolverObject) :=
  (AdjustValue w adjust value).bind fun value =>
    EvalOperation w adjust.operation object scope last_value value

/-! ## Variable fetch -/

/-- Collaborators declared outside the sources: the global variable table
`GetGlobalVariable(variable, &value, grffile)` (the value when it answers `true`) and the
callback id `CBID_RANDOM_TRIGGER`. -/
structure Externals where
  GetGlobalVariable : Nat → Option GRFFile → Option Nat
  CBID_RANDOM_TRIGGER : Nat

/-- The static function `GetVariable`; `var` is its argument `variable`, `scope` the scope
pointer. Returns the value with the flag `available` after the call. -/
def GetVariable (ext : Externals) (object : ResolverObject) (scope : Nat) (var : Nat)
    (parameter : Nat) (available : Bool) : Nat × Bool :=
  if var = 0x0C then (object.callback, available)
  else if var = 0x10 then (object.callback_param1, available)
  else if var = 0x18 then (object.callback_param2, available)
  else if var = 0x1C then (object.last_value, available)
  else if var = 0x5F then
    (toU32 ((object.scopes scope).GetRandomBits <<< 8) ||| (object.scopes scope).GetRandomTriggers,
      available)
  else if var = 0x7D then (toU32 (object.GetRegister parameter), available)
  else if var = 0x7F then
    match object.grffile with
    | none => (0, available)
    | some grf => (grf.GetParam parameter, available)
  else
    match (if var < 0x40 then ext.GetGlobalVariable var object.grffile else none) with
    | some value => (value, available)
    | none => (object.scopes scope).GetVariable var parameter available (object.scopes scope).psa

/-! ## Range selection -/

/-- The comparator `RangeHighComparator`. -/
def RangeHighComparator (range : DeterministicSpriteGroupRange) (value : Nat) : Bool :=
  decide (range.high < value)

/-- The loop of `std::lower_bound` on the positions `first .. first + len` of `ranges`:
halve `len`, look at the middle element, keep the half that can hold the answer. The first
argument bounds the number of iterations. -/
def lower_bound_loop (ranges : List DeterministicSpriteGroupRange) (value : Nat) :
    Nat → Nat → Nat → Nat
  | 0, first, _ => first
  | steps + 1, first, len =>
    if len = 0 then first
    else
      match ranges[first + len / 2]? with
      | none => first
      | some middle =>
        if RangeHighComparator middle value then
          lower_bound_loop ranges value steps (first + len / 2 + 1) (len - len / 2 - 1)
        else lower_bound_loop ranges value steps first (len / 2)

/-- The call `std::lower_bound(ranges.begin(), ranges.end(), value, RangeHighComparator)`, as the
position of the iterator it returns (`ranges.length` for `ranges.end()`). -/
def lower_bound (ranges : List DeterministicSpriteGroupRange) (value : Nat) : Nat :=
  lower_bound_loop ranges value ranges.length 0 ranges.length

/-- Lines 228-232 of `DeterministicSpriteGroup::Resolve`: the selection by binary search. A failing
`assert` has no result. -/
def BinarySelect (ranges : List DeterministicSpriteGroupRange)
    (default_result : DeterministicSpriteGroupResult) (value : Nat) :
    Option DeterministicSpriteGroupResult :=
  match ranges[lower_bound ranges value]? with
  | none => some default_result
  | some lower =>
    if lower.low ≤ value then
      if lower.low ≤ value ∧ value ≤ lower.high then some lower.result else none
    else some default_result

/-- Lines 234-239 of `DeterministicSpriteGroup::Resolve`: the first range in list order that
contains `value`. -/
def LinearSelect : List DeterministicSpriteGroupRange → DeterministicSpriteGroupResult → Nat →
    DeterministicSpriteGroupResult
  | [], default_result, _ => default_result
  | range :: rest, default_result, value =>
    if range.low ≤ value ∧ value ≤ range.high then range.result
    else LinearSelect rest default_result value

/-- Lines 225-240 of `DeterministicSpriteGroup::Resolve`: binary search above four ranges,
linear scan otherwise. -/
def SelectResult (ranges : List DeterministicSpriteGroupRange)
    (default_result : DeterministicSpriteGroupResult) (value : Nat) :
    Option DeterministicSpriteGroupResult :=
  if ranges.length > 4 then BinarySelect ranges default_result value
  else some (LinearSelect ranges default_result value)

/-! ## Resolution -/

/-- A call received by a profiler. -/
inductive ProfilerEvent where
  | BeginResolve
  | EndResolve (result : ResolverResult)
  | RecursiveResolve
  deriving DecidableEq, Repr

/-- Modelled from the spec: the class `NewGRFProfiler` (newgrf_profiling.h is not part of the
sources), "a hook object per mod-file source exposing `active`, `BeginResolve(context)`,
`EndResolve(result)`, `RecursiveResolve()`". `grffile` is the address of its mod file and
`events` the calls it received, oldest first. -/
structure NewGRFProfiler where
  grffile : Option Nat
  active : Bool
  events : List ProfilerEvent
  deriving DecidableEq, Repr

/-- Deliver `event` to the profiler at position `i` of `_newgrf_profilers`. -/
def notifyProfiler (profilers : List NewGRFProfiler) (i : Nat) (event : ProfilerEvent) :
    List NewGRFProfiler :=
  profilers.modify (fun p => { p with events := p.events ++ [event] }) i

/-- State threaded through a resolution: the result, the resolver object and `_newgrf_profilers`. -/
abbrev Resolved := ResolverResult × ResolverObject × List NewGRFProfiler

/-- Type of the re-entrant call `SpriteGroup::Resolve(group, object, top_level)`. -/
abbrev ResolveFn := Option Nat → ResolverObject → List NewGRFProfiler → Bool → Option Resolved

/-- Lines 195-206 of `DeterministicSpriteGroup::Resolve`: the fetch of one adjustment. Returns the
fetched value, the flag `available`, and the state after the fetch. -/
def FetchAdjust (ext : Externals) (resolve : ResolveFn) (adjust : DeterministicSpriteGroupAdjust)
    (scope : Nat) (last_value : Nat) (object : ResolverObject) (profilers : List NewGRFProfiler) :
    Option (Nat × Bool × ResolverObject × List NewGRFProfiler) :=
  if adjust.var = 0x7E then
    match resolve adjust.subroutine object profilers false with
    | none => none
    | some (subgroup, object, profilers) =>
      match subgroup with
      | .callback subvalue => some (subvalue, true, object, profilers)
      | _ => some (0xFFFF, true, object, profilers)
  else if adjust.var = 0x7B then
    some ((GetVariable ext object scope adjust.parameter last_value true).1,
      (GetVariable ext object scope adjust.parameter last_value true).2, object, profilers)
  else
    some ((GetVariable ext object scope adjust.var adjust.parameter true).1,
      (GetVariable ext object scope adjust.var adjust.parameter true).2, object, profilers)

/-- How the adjustment loop of a deterministic group ends: by the early `return` on an
unavailable variable, or after the last adjustment with the locals `last_value` and `value`. -/
inductive ChainResult where
  | unavailable (object : ResolverObject) (profilers : List NewGRFProfiler)
  | finished (last_value : Nat) (value : Nat) (object : ResolverObject)
      (profilers : List NewGRFProfiler)

/-- Lines 193-221 of `DeterministicSpriteGroup::Resolve`: the loop over the adjustments, from
the locals `last_value` and `value`. -/
def RunAdjusts (ext : Externals) (resolve : ResolveFn) (size : DeterministicSpriteGroupSize)
    (scope : Nat) : List DeterministicSpriteGroupAdjust → Nat → Nat → ResolverObject →
    List NewGRFProfiler → Option ChainResult
  | [], last_value, value, object, profilers =>
    some (.finished last_value value object profilers)
  | adjust :: rest, last_value, _, object, profilers =>
    match FetchAdjust ext resolve adjust scope last_value object profilers with
    | none => none
    | some (value, available, object, profilers) =>
      if available = false then some (.unavailable object profilers)
      else
        match EvalAdjustT size adjust object scope (toU size last_value) value with
        | none => none
        | some (value, object) => RunAdjusts ext resolve size scope rest value value object profilers

/-- The method `DeterministicSpriteGroup::Resolve`; `resolve` is `SpriteGroup::Resolve`. -/
def DeterministicSpriteGroup.Resolve (ext : Externals) (resolve : ResolveFn)
    (g : DeterministicSpriteGroup) (object : ResolverObject) (profilers : List NewGRFProfiler) :
    Option Resolved :=
  match RunAdjusts ext resolve g.size (object.GetScope g.var_scope 0) g.adjusts 0 0 object
      profilers with
  | none => none
  | some (.unavailable object profilers) => resolve g.error_group object profilers false
  | some (.finished last_value value object profilers) =>
    match SelectResult g.ranges g.default_result value with
    | none => none
    | some result =>
      if result.calculated_result then
        some (.callback (GB value 0 15), { object with last_value := last_value }, profilers)
      else resolve result.group { object with last_value := last_value } profilers false

/-- Lines 252-261 of `RandomizedSpriteGroup::Resolve`: the handling of triggers. The shifted
operand `groups.size() - 1` is a 64-bit `size_t`, the reseed mask a 32-bit word. -/
def RandomizedSpriteGroup.HandleTriggers (ext : Externals) (g : RandomizedSpriteGroup)
    (object : ResolverObject) : Option ResolverObject :=
  if object.callback = ext.CBID_RANDOM_TRIGGER then
    if (if g.cmp_mode = .RSG_CMP_ANY then
          toU8 (g.triggers &&& object.GetWaitingRandomTriggers) ≠ 0
        else toU8 (g.triggers &&& object.GetWaitingRandomTriggers) = g.triggers) then
      if 64 ≤ g.lowest_randbit then none
      else
        some { object.AddUsedRandomTriggers (toU8 (g.triggers &&& object.GetWaitingRandomTriggers)) with
          reseed := fun s =>
            if s = g.var_scope then
              (object.reseed s |||
                toUnsigned 64 (toUnsigned 64 ((g.groups.length : Int) - 1) <<< g.lowest_randbit)) % 2 ^ 32
            else object.reseed s }
    else some object
  else some object

/-- Lines 263-264 of `RandomizedSpriteGroup::Resolve`: the index of the child, from the random
bits of the scope. -/
def RandomizedSpriteGroup.Index (g : RandomizedSpriteGroup) (random_bits : Nat) : Option Nat :=
  if 32 ≤ g.lowest_randbit then none
  else
    some (toU8 (((random_bits % 2 ^ 32) &&&
      toU32 (toU32 ((g.groups.length : Int) - 1) <<< g.lowest_randbit)) >>> g.lowest_randbit))

/-- The method `RandomizedSpriteGroup::Resolve`. -/
def RandomizedSpriteGroup.Resolve (ext : Externals) (resolve : ResolveFn)
    (g : RandomizedSpriteGroup) (object : ResolverObject) (profilers : List NewGRFProfiler) :
    Option Resolved :=
  match g.HandleTriggers ext object with
  | none => none
  | some object' =>
    match g.Index (object'.scopes (object.GetScope g.var_scope g.count)).GetRandomBits with
    | none => none
    | some index =>
      match g.groups[index]? with
      | none => none
      | some child => resolve child object' profilers false

/-- The virtual call `group->Resolve(object)` on the group at address `p`. -/
def SpriteGroup.ResolveNode (ext : Externals) (resolve : ResolveFn) (p : Nat) (group : SpriteGroup)
    (object : ResolverObject) (profilers : List NewGRFProfiler) : Option Resolved :=
  match group with
  | .Deterministic g => g.Resolve ext resolve object profilers
  | .Randomized g => g.Resolve ext resolve object profilers
  | .CallbackResult result => some (.callback result, object, profilers)
  | .Real g => resolve (object.ResolveReal g) object profilers false
  | .Terminal => some (.group p, object, profilers)

/-- The entry point `SpriteGroup::Resolve(group, object, top_level)` over the pool `pool`.
The first argument is the recursion budget. -/
def SpriteGroup.Resolve (ext : Externals) (pool : Nat → SpriteGroup) :
    Nat → Option Nat → ResolverObject → List NewGRFProfiler → Bool → Option Resolved
  | _, none, object, profilers, _ => some (.monostate, object, profilers)
  | 0, some _, _, _, _ => none
  | budget + 1, some p, object, profilers, top_level =>
    match profilers.findIdx? (fun pr => pr.grffile = object.grffile.map GRFFile.addr) with
    | none => (pool p).ResolveNode ext (SpriteGroup.Resolve ext pool budget) p object profilers
    | some i =>
      if (profilers.getD i ⟨none, false, []⟩).active = false then
        (pool p).ResolveNode ext (SpriteGroup.Resolve ext pool budget) p object profilers
      else if top_level then
        match (pool p).ResolveNode ext (SpriteGroup.Resolve ext pool budget) p object
            (notifyProfiler profilers i .BeginResolve) with
        | none => none
        | some (result, object, profilers) =>
          some (result, object, notifyProfiler profilers i (.EndResolve result))
      else
        (pool p).ResolveNode ext (SpriteGroup.Resolve ext pool budget) p object
          (notifyProfiler profilers i .RecursiveResolve)

/-! ## Well-formedness of a range list -/

/-- The scalar `value` lies in the closed range `[low, high]`. -/
def DeterministicSpriteGroupRange.Contains (range : DeterministicSpriteGroupRange) (value : Nat) :
    Prop :=
  range.low ≤ value ∧ value ≤ range.high

/-- Every range of the list has `low ≤ high`. -/
def RangesClosed (ranges : List DeterministicSpriteGroupRange) : Prop :=
  ∀ range ∈ ranges, range.low ≤ range.high

/-- The list is sorted ascending by upper bound. -/
def SortedByHigh (ranges : List DeterministicSpriteGroupRange) : Prop :=
  ranges.Pairwise (fun a b => a.high ≤ b.high)

/-- No two ranges of the list overlap: one of them ends before the other begins. -/
def NonOverlapping (ranges : List DeterministicSpriteGroupRange) : Prop :=
  ranges.Pairwise (fun a b => a.high < b.low ∨ b.high < a.low)

/-! ## Resolving twice -/

/-- Modelled from the spec: the cleared register file ("the register file cleared between
runs"; the clearing method of `TemporaryStorageArray` is not part of the sources): every slot
reads 0. -/
def TemporaryStorageArray.cleared : TemporaryStorageArray := ⟨fun _ => 0⟩

/-- The resolver object with its register file cleared. -/
def ResolverObject.ClearRegisters (object : ResolverObject) : ResolverObject :=
  { object with temp_store := TemporaryStorageArray.cleared }

/-- The round trip of the spec: resolve `group`, clear the register file, resolve `group` again
with the same resolver object and profilers; the two results, in order. -/
def ResolveTwice (ext : Externals) (pool : Nat → SpriteGroup) (budget : Nat) (group : Option Nat)
    (object : ResolverObject) (profilers : List NewGRFProfiler) (top_level : Bool) :
    Option (ResolverResult × ResolverResult) :=
  match SpriteGroup.Resolve ext pool budget group object profilers top_level with
  | none => none
  | some (result1, object1, profilers1) =>
    match SpriteGroup.Resolve ext pool budget group object1.ClearRegisters profilers1
        top_level with
    | none => none
    | some (result2, _, _) => some (result1, result2)

/-- The variables a scope supplies do not depend on what is in its persistent storage. -/
def ScopeVariablesFixed (object : ResolverObject) : Prop :=
  ∀ k var parameter available (s1 s2 : Storage),
    (object.scopes k).GetVariable var parameter available s1
      = (object.scopes k).GetVariable var parameter available s2

/-- What a resolution never writes: callback id and parameters, mod file, waiting triggers, the
virtual methods of the object and of its scopes. -/
structure SameFrame (a b : ResolverObject) : Prop where
  callback : a.callback = b.callback
  callback_param1 : a.callback_param1 = b.callback_param1
  callback_param2 : a.callback_param2 = b.callback_param2
  grffile : a.grffile = b.grffile
  waiting : a.waiting_random_triggers = b.waiting_random_triggers
  getScope : a.GetScope = b.GetScope
  resolveReal : a.ResolveReal = b.ResolveReal
  randomBits : ∀ k, (a.scopes k).GetRandomBits = (b.scopes k).GetRandomBits
  randomTriggers : ∀ k, (a.scopes k).GetRandomTriggers = (b.scopes k).GetRandomTriggers
  getVariable : ∀ k, (a.scopes k).GetVariable = (b.scopes k).GetVariable
  storePSA : ∀ k, (a.scopes k).StorePSA = (b.scopes k).StorePSA

/-- Two resolver objects that a resolution cannot tell apart when scope variables are fixed:
they agree on everything but the reseed masks, the used triggers and the contents of the
persistent storage. -/
structure SameInputs (a b : ResolverObject) : Prop where
  frame : SameFrame a b
  last_value : a.last_value = b.last_value
  temp_store : a.temp_store = b.temp_store
  fixed : ScopeVariablesFixed a

/-- A re-entrant resolve `resolve` carries a result from an object to every object with the same
inputs: the same result comes out, the objects left have the same inputs again, and the first
keeps its frame. -/
def ForwardAgree (resolve : ResolveFn) : Prop :=
  ∀ (group : Option Nat) (a b : ResolverObject) (pa pb : List NewGRFProfiler) (top_level : Bool)
    (r : ResolverResult) (a' : ResolverObject) (pa' : List NewGRFProfiler),
    SameInputs a b → resolve group a pa top_level = some (r, a', pa') →
    ∃ b' pb', resolve group b pb top_level = some (r, b', pb') ∧ SameInputs a' b' ∧ SameFrame a a'

/-! ## Nearest-neighbour scaling (video/blitter_helpers.cpp)

The type `float` is binary32 with round-to-nearest, ties-to-even arithmetic. A finite binary32
number is written `(-1)^neg * mant * 2^exp` with `mant < 2^24` and `-149 ≤ exp ≤ 104`; every
operation computes the exact rational result as a quotient of two naturals and rounds it.
Infinities and NaN are not values of the model: an operation that overflows or divides by zero
has no result, and neither has whatever consumes it (`std::lround` and the cast to `int` are
not defined there). -/

/-- A finite binary32 number `(-1)^neg * mant * 2^exp`. -/
structure Binary32 where
  neg : Bool
  mant : Nat
  exp : Int
  deriving DecidableEq, Repr

/-- The quotient `n / d` rounded to the nearest natural, ties to even. -/
def roundHalfEven (n d : Nat) : Nat :=
  if 2 * (n % d) < d then n / d
  else if 2 * (n % d) = d then n / d + (n / d) % 2
  else n / d + 1

/-- The position of the unit in the last place for the magnitude `num / den`: the least `k`
from the given one on, at most the given number of steps further, with
`num / den < 2^(k + 24 - 149)`. -/
def ulpIndex (num den : Nat) : Nat → Nat → Nat
  | 0, k => k
  | steps + 1, k => if num * 2 ^ 149 < den * 2 ^ (k + 24) then k else ulpIndex num den steps (k + 1)

/-- Rounding of the rational `(-1)^neg * num / den` (`den > 0`) to binary32, to nearest with
ties to even. The unit in the last place is `2^(k - 149)` with `k` between 0 (subnormal
numbers) and 253; a magnitude that rounds to `2^128` or more overflows. -/
def roundToBinary32 (neg : Bool) (num den : Nat) : Option Binary32 :=
  if roundHalfEven (num * 2 ^ 149) (den * 2 ^ ulpIndex num den 254 0) = 2 ^ 24 then
    if ulpIndex num den 254 0 + 1 > 253 then none
    else some ⟨neg, 2 ^ 23, ((ulpIndex num den 254 0 + 1 : Nat) : Int) - 149⟩
  else if ulpIndex num den 254 0 > 253 then none
  else
    some ⟨neg, roundHalfEven (num * 2 ^ 149) (den * 2 ^ ulpIndex num den 254 0),
      ((ulpIndex num den 254 0 : Nat) : Int) - 149⟩

/-- The conversion of an `int` to `float`. -/
def Binary32.ofInt (n : Int) : Option Binary32 :=
  roundToBinary32 (decide (n < 0)) n.natAbs 1

/-- The product `a * b` of two floats. -/
def Binary32.mul (a b : Binary32) : Option Binary32 :=
  roundToBinary32 (a.neg != b.neg) (a.mant * b.mant * 2 ^ (a.exp + b.exp).toNat)
    (2 ^ (-(a.exp + b.exp)).toNat)

/-- The quotient `a / b` of two floats; a zero divisor gives no finite number. -/
def Binary32.div (a b : Binary32) : Option Binary32 :=
  if b.mant = 0 then none
  else
    roundToBinary32 (a.neg != b.neg) (a.mant * 2 ^ (a.exp - b.exp).toNat)
      (b.mant * 2 ^ (b.exp - a.exp).toNat)

/-- The comparison `f == 1.0f`. -/
def Binary32.isOne (f : Binary32) : Bool :=
  !f.neg && decide (f.mant * 2 ^ f.exp.toNat = 2 ^ (-f.exp).toNat)

/-- The call `std::lround(f)`: the nearest integer, halfway cases away from zero, as a `long` of
64 bits; a value outside `long` has no defined result. -/
def Binary32.lround (f : Binary32) : Option Int :=
  if (2 * (f.mant * 2 ^ f.exp.toNat) + 2 ^ (-f.exp).toNat) / (2 * 2 ^ (-f.exp).toNat) < 2 ^ 63 then
    some (if f.neg then
        -(((2 * (f.mant * 2 ^ f.exp.toNat) + 2 ^ (-f.exp).toNat) / (2 * 2 ^ (-f.exp).toNat) : Nat) : Int)
      else ((2 * (f.mant * 2 ^ f.exp.toNat) + 2 ^ (-f.exp).toNat) / (2 * 2 ^ (-f.exp).toNat) : Nat))
  else none

/-- The cast `static_cast<int>(f)`: truncation toward zero; a value outside `int` has no defined
result. -/
def Binary32.toInt (f : Binary32) : Option Int :=
  checkInt (if f.neg then -((f.mant * 2 ^ f.exp.toNat / 2 ^ (-f.exp).toNat : Nat) : Int)
    else ((f.mant * 2 ^ f.exp.toNat / 2 ^ (-f.exp).toNat : Nat) : Int))

/-- Lines 15-16 of blitter_helpers.cpp: `std::lround(size * scale_factor)` stored in an `int`
(the `long` is reduced modulo `2^32`). -/
def scaledSize (size : Int) (scale_factor : Binary32) : Option Int :=
  (Binary32.ofInt size).bind fun f =>
    (f.mul scale_factor).bind fun product =>
      product.lround.map fun rounded => toSigned 32 rounded

/-- Lines 23 and 25 of blitter_helpers.cpp:
`std::min(static_cast<int>(i / scale_factor), size - 1)` for the loop counter `i`. -/
def sourceCoordinate (i : Nat) (scale_factor : Binary32) (size : Int) : Option Int :=
  (Binary32.ofInt i).bind fun f =>
    (f.div scale_factor).bind fun quotient =>
      quotient.toInt.bind fun truncated =>
        (checkInt (size - 1)).map fun last => min truncated last

/-- The list `[f 0, f 1, .., f (n - 1)]`, when every entry has a result. -/
def tabulateOption {α : Type} (f : Nat → Option α) : Nat → Option (List α)
  | 0 => some []
  | n + 1 =>
    match tabulateOption f n, f n with
    | some l, some a => some (l ++ [a])
    | _, _ => none

/-- Line 26 of blitter_helpers.cpp: the read `src[src_y * width + src_x]`; `src` is the list of
the pixels the pointer addresses, and a read outside it has no result. -/
def sourcePixel {α : Type} (src : List α) (width src_y src_x : Int) : Option α :=
  (checkInt (src_y * width)).bind fun row =>
    (checkInt (row + src_x)).bind fun index =>
      if index < 0 then none else src[index.toNat]?

/-- Lines 22-28 of blitter_helpers.cpp: the two loops, called with positive output dimensions;
the buffer is returned row by row, the pixel of `(x, y)` at position `y * out_width + x`. -/
def scaleLoops {α : Type} (src : List α) (width height : Int) (scale_factor : Binary32)
    (out_width out_height : Nat) : Option (List α) :=
  (tabulateOption (fun y =>
    (sourceCoordinate y scale_factor height).bind fun src_y =>
      tabulateOption (fun x =>
        (sourceCoordinate x scale_factor width).bind fun src_x =>
          sourcePixel src width src_y src_x) out_width) out_height).map List.flatten

/-- The function `ScaleSpriteNearest`. The result is `out_width`, `out_height` and the returned
optional buffer; `blank` is a value-initialised `Colour`, which is what the elements of the new
buffer hold before the loops write them. The allocation is taken to succeed except for a
negative element count. -/
def ScaleSpriteNearest {α : Type} (blank : α) (src : List α) (width height : Int)
    (scale_factor : Binary32) : Option (Int × Int × Option (List α)) :=
  if scale_factor.isOne then some (width, height, none)
  else
    match scaledSize width scale_factor with
    | none => none
    | some out_width =>
      match scaledSize height scale_factor with
      | none => none
      | some out_height =>
        if out_width = 0 ∨ out_height = 0 then some (out_width, out_height, none)
        else
          match checkInt (out_width * out_height) with
          | none => none
          | some count =>
            if count < 0 then none
            else if out_height < 0 then
              some (out_width, out_height, some (List.replicate count.toNat blank))
            else
              (scaleLoops src width height scale_factor out_width.toNat out_height.toNat).map
                fun scaled => (out_width, out_height, some scaled)

/-! ## Concrete inputs -/

/-- A resolver object with callback id 7, cleared registers and base-class scopes. -/
def exObject : ResolverObject where
  callback := 7
  callback_param1 := 0
  callback_param2 := 0
  last_value := 0
  grffile := none
  temp_store := ⟨fun _ => 0⟩
  reseed := fun _ => 0
  waiting_random_triggers := 0
  used_random_triggers := 0
  scopes := fun _ => ScopeResolver.base (fun _ => 0)
  GetScope := fun _ _ => 0
  ResolveReal := ResolveRealDefault

/-- An adjustment with the given operation on variable `var`: no shift, full mask, no sub-mode. -/
def exAdjust (op : DeterministicSpriteGroupAdjustOperation) (var : Nat) (parameter : Nat) :
    DeterministicSpriteGroupAdjust where
  operation := op
  type := .DSGA_TYPE_NONE
  var := var
  parameter := parameter
  shift_num := 0
  and_mask := 0xFFFFFFFF
  add_val := 0
  divmod_val := 0
  subroutine := none

/-- No global variable answers; the random-trigger callback has id 1. -/
def exExt : Externals where
  GetGlobalVariable := fun _ _ => none
  CBID_RANDOM_TRIGGER := 1

/-- The child results `A`, `B` and the default `D` of the range examples: groups 1, 2 and 3. -/
def exResult (p : Nat) : DeterministicSpriteGroupResult := ⟨false, some p⟩

/-- The ranges `[0,9] → A` and `[10,19] → B`. -/
def exRanges2 : List DeterministicSpriteGroupRange :=
  [⟨exResult 1, 0, 9⟩, ⟨exResult 2, 10, 19⟩]

/-- Five ranges `[0,9]`, `[10,19]`, `[20,29]`, `[30,39]`, `[40,49]` selecting groups 1 to 5. -/
def exRanges5 : List DeterministicSpriteGroupRange :=
  [⟨exResult 1, 0, 9⟩, ⟨exResult 2, 10, 19⟩, ⟨exResult 4, 20, 29⟩, ⟨exResult 5, 30, 39⟩,
    ⟨exResult 6, 40, 49⟩]

/-- Five ranges sorted by upper bound, no two overlapping, the first with `low = 9 > high = 3`. -/
def exRangesOpen : List DeterministicSpriteGroupRange :=
  [⟨exResult 1, 9, 3⟩, ⟨exResult 2, 1, 4⟩, ⟨exResult 4, 20, 29⟩, ⟨exResult 5, 30, 39⟩,
    ⟨exResult 6, 40, 49⟩]

/-- A pool whose slot 1 is a callback-result group with constant 42; every other slot is a
terminal group. -/
def exPool : Nat → SpriteGroup
  | 1 => .CallbackResult 42
  | _ => .Terminal

/-- A resolver object like `exObject` with first callback parameter 0x12345. -/
def exObjectParam : ResolverObject := { exObject with callback_param1 := 0x12345 }

/-- A dword group on `exPool`: load the callback id, then read the scope variable 0x40 (which
the base scope does not have), then store; the error group is slot 1. -/
def exGroupUnavailable : DeterministicSpriteGroup where
  var_scope := 0
  size := .DSG_SIZE_DWORD
  adjusts := [exAdjust .DSGA_OP_RST 0x0C 0, exAdjust .DSGA_OP_ADD 0x40 0,
    exAdjust .DSGA_OP_STO 0x0C 0]
  ranges := []
  default_result := ⟨false, none⟩
  error_group := some 1

/-- A dword group that loads the first callback parameter and has a calculated default. -/
def exGroupCalculated : DeterministicSpriteGroup where
  var_scope := 0
  size := .DSG_SIZE_DWORD
  adjusts := [exAdjust .DSGA_OP_RST 0x10 0]
  ranges := []
  default_result := ⟨true, none⟩
  error_group := none

/-- A procedure call of the group in slot 1 of the pool. -/
def exAdjustProcedure : DeterministicSpriteGroupAdjust :=
  { exAdjust .DSGA_OP_RST 0x7E 0 with subroutine := some 1 }

/-- A randomized group with three children (slots 1, 2 and 3 of the pool), lowest bit 1, trigger
bits 0b11 in ANY mode. -/
def exRandomized3 : RandomizedSpriteGroup where
  var_scope := 0
  cmp_mode := .RSG_CMP_ANY
  triggers := 3
  count := 0
  lowest_randbit := 1
  groups := [some 1, some 2, some 3]

/-- A randomized group with four children (slots 10 to 13), lowest bit 0. -/
def exRandomized4 : RandomizedSpriteGroup where
  var_scope := 0
  cmp_mode := .RSG_CMP_ANY
  triggers := 3
  count := 0
  lowest_randbit := 0
  groups := [some 10, some 11, some 12, some 13]

/-- A randomized group with 512 children (slots 0 to 511) and the given lowest bit. -/
def exRandomized512 (lowest_randbit : Nat) : RandomizedSpriteGroup where
  var_scope := 0
  cmp_mode := .RSG_CMP_ANY
  triggers := 3
  count := 0
  lowest_randbit := lowest_randbit
  groups := (List.range 512).map some

/-- A resolver object like `exObject` on the random-trigger callback of `exExt`, with waiting
trigger bit 0. -/
def exObjectTrigger : ResolverObject :=
  { exObject with callback := 1, waiting_random_triggers := 1 }

/-- A dword group with a calculated default whose chain reads variable 0x1C (the `last_value`
of the object) and adds the callback id. -/
def exGroupLastValue : DeterministicSpriteGroup where
  var_scope := 0
  size := .DSG_SIZE_DWORD
  adjusts := [exAdjust .DSGA_OP_RST 0x1C 0, exAdjust .DSGA_OP_ADD 0x0C 0]
  ranges := []
  default_result := ⟨true, none⟩
  error_group := none

/-- A dword group with a calculated default whose chain reads register 0. -/
def exGroupRegister : DeterministicSpriteGroup where
  var_scope := 0
  size := .DSG_SIZE_DWORD
  adjusts := [exAdjust .DSGA_OP_RST 0x7D 0]
  ranges := []
  default_result := ⟨true, none⟩
  error_group := none

/-- A pool with `exGroupLastValue` in slot 2 and `exGroupRegister` in slot 3. -/
def exPoolTwice : Nat → SpriteGroup
  | 2 => .Deterministic exGroupLastValue
  | 3 => .Deterministic exGroupRegister
  | _ => .Terminal

/-- A randomized group with four children (slots 10 to 13), triggers 0b11 in ANY mode and the
given lowest bit. -/
def exRandomized4At (lowest_randbit : Nat) : RandomizedSpriteGroup where
  var_scope := 0
  cmp_mode := .RSG_CMP_ANY
  triggers := 3
  count := 0
  lowest_randbit := lowest_randbit
  groups := [some 10, some 11, some 12, some 13]

/-- A randomized group without children. -/
def exRandomizedEmpty : RandomizedSpriteGroup where
  var_scope := 0
  cmp_mode := .RSG_CMP_ANY
  triggers := 3
  count := 0
  lowest_randbit := 0
  groups := []

/-! ## Machine integer lemmas -/

theorem bits_ge (w : DeterministicSpriteGroupSize) : 8 ≤ w.bits := by
  cases w <;> simp [DeterministicSpriteGroupSize.bits]

theorem toUnsigned_natCast (n k : Nat) : toUnsigned n (k : Int) = k % 2 ^ n := by
  unfold toUnsigned
  have h : ((k : Int) % (2 : Int) ^ n) = ((k % 2 ^ n : Nat) : Int) := by
    push_cast
    rfl
  rw [h]
  exact Int.toNat_natCast _

theorem toU_natCast (w : DeterministicSpriteGroupSize) (k : Nat) :
    toU w (k : Int) = k % 2 ^ w.bits := toUnsigned_natCast _ _

theorem toU_of_lt (w : DeterministicSpriteGroupSize) (k : Nat) (h : k < 2 ^ w.bits) :
    toU w (k : Int) = k := by
  rw [toU_natCast, Nat.mod_eq_of_lt h]

theorem toUnsigned_lt (n : Nat) (x : Int) : toUnsigned n x < 2 ^ n := by
  unfold toUnsigned
  have hpos : (0 : Int) < (2 : Int) ^ n := by positivity
  have h1 := Int.emod_nonneg x (ne_of_gt hpos)
  have h2 := Int.emod_lt_of_pos x hpos
  have : ((x % (2 : Int) ^ n).toNat : Int) < ((2 ^ n : Nat) : Int) := by
    rw [Int.toNat_of_nonneg h1]
    push_cast
    exact h2
  exact_mod_cast this

theorem toUnsigned_toSigned (n : Nat) (x : Int) : toUnsigned n (toSigned n x) = toUnsigned n x := by
  unfold toUnsigned toSigned
  split
  · rw [Int.emod_emod]
  · rw [Int.sub_emod, Int.emod_self, sub_zero, Int.emod_emod, Int.emod_emod]

theorem toU_toS (w : DeterministicSpriteGroupSize) (x : Int) : toU w (toS w x) = toU w x :=
  toUnsigned_toSigned _ _

theorem toU_and_31 (w : DeterministicSpriteGroupSize) (v : Nat) :
    toU w (v : Int) &&& 0x1F = v % 32 := by
  rw [toU_natCast]
  have h : (0x1F : Nat) = 2 ^ 5 - 1 := by norm_num
  rw [h, Nat.and_pow_two_sub_one_eq_mod]
  have hd : 2 ^ 5 ∣ 2 ^ w.bits := Nat.pow_dvd_pow 2 (le_trans (by norm_num) (bits_ge w))
  rw [Nat.mod_mod_of_dvd _ hd]
  norm_num

theorem toUnsigned_natCast_le (n k : Nat) : toUnsigned n (k : Int) ≤ k := by
  rw [toUnsigned_natCast]
  exact Nat.mod_le _ _

theorem toUnsigned_pred (n k : Nat) (hk : 0 < k) :
    toUnsigned n ((k : Int) - 1) = (k - 1) % 2 ^ n := by
  have h : ((k : Int) - 1) = ((k - 1 : Nat) : Int) := by omega
  rw [h, toUnsigned_natCast]

/-! ## Register file lemmas -/

theorem GetRegister_SetRegister_same (object : ResolverObject) (i : Nat) (value : Int)
    (h : i < 0x110) : (object.SetRegister i value).GetRegister i = value := by
  simp [ResolverObject.SetRegister, ResolverObject.GetRegister, TemporaryStorageArray.StoreValue,
    TemporaryStorageArray.GetValue, h]

theorem GetRegister_SetRegister_other (object : ResolverObject) (i j : Nat) (value : Int)
    (h : j ≠ i) : (object.SetRegister i value).GetRegister j = object.GetRegister j := by
  unfold ResolverObject.SetRegister ResolverObject.GetRegister TemporaryStorageArray.StoreValue
    TemporaryStorageArray.GetValue
  by_cases hi : i < 0x110 <;> simp [hi, h]

/-! ## C1: the stores STO and STOP -/

/-- C1, as the code has it: for every width, accumulator and operand `v` (the fetched value after
shift, mask and sub-mode), STO calls `SetRegister((U)v, (S)last_value)`: the register whose
index is the operand receives the previous `last_value` read as the signed type of the width
(when the index is inside the register file), every other register and every scope is left
unchanged, and the previous `last_value` is returned as the new accumulator; STOP makes the same
call `StorePSA((U)v, (S)last_value)` on the scope, leaving the registers and every other scope
unchanged. -/
theorem EvalAdjustT_store (w : DeterministicSpriteGroupSize)
    (adjust : DeterministicSpriteGroupAdjust) (object : ResolverObject) (scope : Nat)
    (last_value value v : Nat) (hv : AdjustValue w adjust value = some v) :
    (adjust.operation = .DSGA_OP_STO →
      EvalAdjustT w adjust object scope last_value value
          = some (last_value, object.SetRegister (toU w v) (toS w last_value))
        ∧ (toU w v < 0x110 →
            (object.SetRegister (toU w v) (toS w last_value)).GetRegister (toU w v)
              = toS w last_value)
        ∧ (∀ i, i ≠ toU w v →
            (object.SetRegister (toU w v) (toS w last_value)).GetRegister i = object.GetRegister i)
        ∧ (object.SetRegister (toU w v) (toS w last_value)).scopes = object.scopes)
    ∧ (adjust.operation = .DSGA_OP_STOP →
      EvalAdjustT w adjust object scope last_value value
          = some (last_value, object.StorePSA scope (toU w v) (toS w last_value))
        ∧ ((object.StorePSA scope (toU w v) (toS w last_value)).scopes scope).psa
            = (object.scopes scope).StorePSA (toU w v) (toS w last_value) (object.scopes scope).psa
        ∧ (∀ k, k ≠ scope →
            (object.StorePSA scope (toU w v) (toS w last_value)).scopes k = object.scopes k)
        ∧ (object.StorePSA scope (toU w v) (toS w last_value)).temp_store = object.temp_store) := by
  refine ⟨fun hop => ⟨?_, ?_, ?_, rfl⟩, fun hop => ⟨?_, ?_, ?_, rfl⟩⟩
  · simp [EvalAdjustT, hv, hop, EvalOperation]
  · exact GetRegister_SetRegister_same object _ _
  · intro i hi
    exact GetRegister_SetRegister_other object _ i _ hi
  · simp [EvalAdjustT, hv, hop, EvalOperation]
  · simp [ResolverObject.StorePSA]
  · intro k hk
    simp [ResolverObject.StorePSA, hk]

/-- Witness of `EvalAdjustT_store`: a dword STO and a dword STOP with accumulator 5 and fetched
value 3. -/
theorem EvalAdjustT_store_witness :
    (AdjustValue .DSG_SIZE_DWORD (exAdjust .DSGA_OP_STO 0x1A 0) 3 = some 3
      ∧ EvalAdjustT .DSG_SIZE_DWORD (exAdjust .DSGA_OP_STO 0x1A 0) exObject 0 5 3
          = some (5, exObject.SetRegister (toU .DSG_SIZE_DWORD 3) (toS .DSG_SIZE_DWORD 5)))
    ∧ (AdjustValue .DSG_SIZE_DWORD (exAdjust .DSGA_OP_STOP 0x1A 0) 3 = some 3
      ∧ EvalAdjustT .DSG_SIZE_DWORD (exAdjust .DSGA_OP_STOP 0x1A 0) exObject 0 5 3
          = some (5, exObject.StorePSA 0 (toU .DSG_SIZE_DWORD 3) (toS .DSG_SIZE_DWORD 5))) :=
  ⟨⟨by decide,
      ((EvalAdjustT_store .DSG_SIZE_DWORD (exAdjust .DSGA_OP_STO 0x1A 0) exObject 0 5 3 3
        (by decide)).1 rfl).1⟩,
    ⟨by decide,
      ((EvalAdjustT_store .DSG_SIZE_DWORD (exAdjust .DSGA_OP_STOP 0x1A 0) exObject 0 5 3 3
        (by decide)).2 rfl).1⟩⟩

/-- C1 as stated fails: after a dword STO with accumulator 5 and operand 3, register 5 (the
previous `last_value`) does not hold the operand 3; it is register 3 that holds 5. -/
theorem EvalAdjustT_STO_counterexample :
    (EvalAdjustT .DSG_SIZE_DWORD (exAdjust .DSGA_OP_STO 0x1A 0) exObject 0 5 3).map
        (fun r => r.2.GetRegister 5) ≠ some 3
      ∧ (EvalAdjustT .DSG_SIZE_DWORD (exAdjust .DSGA_OP_STO 0x1A 0) exObject 0 5 3).map
        (fun r => (r.1, r.2.GetRegister 5, r.2.GetRegister 3)) = some (5, 0, 5) := by
  decide

/-! ## C2: division and modulo by zero -/

/-- C2: for every width and each of SDIV, SMOD, UDIV and UMOD, when the operand (the fetched
value after shift, mask and sub-mode) is 0, `EvalAdjustT` returns the prior `last_value`
unchanged, for every prior `last_value` of the width (zero or not), and the resolver object, with
its registers and the persistent storage of its scopes, is left as it was. -/
theorem EvalAdjustT_div_mod_by_zero (w : DeterministicSpriteGroupSize)
    (adjust : DeterministicSpriteGroupAdjust) (object : ResolverObject) (scope : Nat)
    (last_value value : Nat)
    (hop : adjust.operation = .DSGA_OP_SDIV ∨ adjust.operation = .DSGA_OP_SMOD
      ∨ adjust.operation = .DSGA_OP_UDIV ∨ adjust.operation = .DSGA_OP_UMOD)
    (hv : AdjustValue w adjust value = some 0) (hlv : last_value < 2 ^ w.bits) :
    EvalAdjustT w adjust object scope last_value value = some (last_value, object) := by
  have h1 : toU w (last_value : Int) = last_value := toU_of_lt w last_value hlv
  rcases hop with h | h | h | h <;>
    simp [EvalAdjustT, hv, h, EvalOperation, toU_toS, h1]

/-- Witness of `EvalAdjustT_div_mod_by_zero`: a byte SDIV of the accumulator 200 by a fetched 0. -/
theorem EvalAdjustT_div_mod_by_zero_witness :
    AdjustValue .DSG_SIZE_BYTE (exAdjust .DSGA_OP_SDIV 0x1A 0) 0 = some 0
      ∧ 200 < 2 ^ DeterministicSpriteGroupSize.DSG_SIZE_BYTE.bits
      ∧ EvalAdjustT .DSG_SIZE_BYTE (exAdjust .DSGA_OP_SDIV 0x1A 0) exObject 0 200 0
          = some (200, exObject) :=
  ⟨by decide, by decide,
    EvalAdjustT_div_mod_by_zero .DSG_SIZE_BYTE (exAdjust .DSGA_OP_SDIV 0x1A 0) exObject 0 200 0
      (Or.inl rfl) (by decide) (by decide)⟩

/-! ## Range selection lemmas -/

theorem sortedByHigh_getElem? {ranges : List DeterministicSpriteGroupRange}
    (hs : SortedByHigh ranges) {i j : Nat} {a b : DeterministicSpriteGroupRange} (hij : i ≤ j)
    (ha : ranges[i]? = some a) (hb : ranges[j]? = some b) : a.high ≤ b.high := by
  rcases Nat.eq_or_lt_of_le hij with h | h
  · subst h
    rw [ha] at hb
    cases hb
    exact le_refl _
  · obtain ⟨hi, rfl⟩ := List.getElem?_eq_some.1 ha
    obtain ⟨hj, rfl⟩ := List.getElem?_eq_some.1 hb
    exact List.pairwise_iff_getElem.1 hs i j hi hj h

theorem nonOverlapping_getElem? {ranges : List DeterministicSpriteGroupRange}
    (hn : NonOverlapping ranges) {i j : Nat} {a b : DeterministicSpriteGroupRange} (hij : i < j)
    (ha : ranges[i]? = some a) (hb : ranges[j]? = some b) :
    a.high < b.low ∨ b.high < a.low := by
  obtain ⟨hi, rfl⟩ := List.getElem?_eq_some.1 ha
  obtain ⟨hj, rfl⟩ := List.getElem?_eq_some.1 hb
  exact List.pairwise_iff_getElem.1 hn i j hi hj hij

/-- The loop of `lower_bound` keeps the answer between `first` and `first + len`: everything it
leaves to the left has an upper bound below `value`, everything to the right does not. -/
theorem lower_bound_loop_spec {ranges : List DeterministicSpriteGroupRange}
    (hs : SortedByHigh ranges) (value : Nat) :
    ∀ (steps first len : Nat), len ≤ steps → first + len ≤ ranges.length →
      (∀ i a, i < first → ranges[i]? = some a → a.high < value) →
      (∀ i a, first + len ≤ i → ranges[i]? = some a → value ≤ a.high) →
      lower_bound_loop ranges value steps first len ≤ ranges.length
        ∧ (∀ i a, i < lower_bound_loop ranges value steps first len →
            ranges[i]? = some a → a.high < value)
        ∧ (∀ i a, lower_bound_loop ranges value steps first len ≤ i →
            ranges[i]? = some a → value ≤ a.high) := by
  intro steps
  induction steps with
  | zero =>
    intro first len hlen hbound hlo hhi
    have h0 : len = 0 := by omega
    subst h0
    simp only [lower_bound_loop]
    exact ⟨by omega, hlo, fun i a hi => hhi i a (by omega)⟩
  | succ steps ih =>
    intro first len hlen hbound hlo hhi
    unfold lower_bound_loop
    by_cases h0 : len = 0
    · subst h0
      simp only [if_true]
      exact ⟨by omega, hlo, fun i a hi => hhi i a (by omega)⟩
    · simp only [h0, if_false]
      have hmid : first + len / 2 < ranges.length := by
        have : len / 2 < len := Nat.div_lt_self (Nat.pos_of_ne_zero h0) (by norm_num)
        omega
      have hget : ranges[first + len / 2]? = some (ranges[first + len / 2]) :=
        List.getElem?_eq_getElem hmid
      rw [hget]
      simp only [RangeHighComparator]
      by_cases hc : (ranges[first + len / 2]).high < value
      · simp only [hc, decide_True, if_true]
        have hlt : len / 2 < len := Nat.div_lt_self (Nat.pos_of_ne_zero h0) (by norm_num)
        apply ih
        · omega
        · omega
        · intro i a hi ha
          have := sortedByHigh_getElem? hs (show i ≤ first + len / 2 by omega) ha hget
          omega
        · intro i a hi ha
          exact hhi i a (by omega) ha
      · simp only [hc, decide_False, Bool.false_eq_true, if_false]
        apply ih
        · omega
        · omega
        · exact hlo
        · intro i a hi ha
          have := sortedByHigh_getElem? hs hi hget ha
          omega

theorem lower_bound_spec {ranges : List DeterministicSpriteGroupRange}
    (hs : SortedByHigh ranges) (value : Nat) :
    lower_bound ranges value ≤ ranges.length
      ∧ (∀ i a, i < lower_bound ranges value → ranges[i]? = some a → a.high < value)
      ∧ (∀ i a, lower_bound ranges value ≤ i → ranges[i]? = some a → value ≤ a.high) := by
  unfold lower_bound
  apply lower_bound_loop_spec hs value ranges.length 0 ranges.length (le_refl _) (by omega)
  · intro i a hi
    omega
  · intro i a hi ha
    have := (List.getElem?_eq_some.1 ha).1
    omega
theorem BinarySelect_of_mem {ranges : List DeterministicSpriteGroupRange}
    (hc : RangesClosed ranges) (hs : SortedByHigh ranges) (hn : NonOverlapping ranges)
    (default_result : DeterministicSpriteGroupResult) (value : Nat)
    {range : DeterministicSpriteGroupRange} (hmem : range ∈ ranges)
    (hcont : range.Contains value) :
    BinarySelect ranges default_result value = some range.result := by
  obtain ⟨_, hlo, hhi⟩ := lower_bound_spec hs value
  obtain ⟨j, hj, hjr⟩ := List.getElem_of_mem hmem
  have hgetj : ranges[j]? = some range := by
    rw [List.getElem?_eq_getElem hj, hjr]
  have hkj : lower_bound ranges value ≤ j := by
    by_contra hlt
    have := hlo j range (by omega) hgetj
    have := hcont.2
    omega
  have hk : lower_bound ranges value < ranges.length := by omega
  have hgetk := List.getElem?_eq_getElem hk
  have hkhigh := hhi _ _ (le_refl _) hgetk
  have heq : lower_bound ranges value = j := by
    by_contra hne
    have hlt : lower_bound ranges value < j := by omega
    have h1 := nonOverlapping_getElem? hn hlt hgetk hgetj
    have h2 := sortedByHigh_getElem? hs hkj hgetk hgetj
    have h3 := hc _ (List.getElem_mem hk)
    have := hcont.1
    omega
  unfold BinarySelect
  rw [heq, hgetj]
  simp [hcont.1, hcont.2]

theorem BinarySelect_of_not_mem {ranges : List DeterministicSpriteGroupRange}
    (hs : SortedByHigh ranges)
    (default_result : DeterministicSpriteGroupResult) (value : Nat)
    (hnone : ∀ range ∈ ranges, ¬ range.Contains value) :
    BinarySelect ranges default_result value = some default_result := by
  obtain ⟨_, _, hhi⟩ := lower_bound_spec hs value
  unfold BinarySelect
  cases hget : ranges[lower_bound ranges value]? with
  | none => rfl
  | some lower =>
    have hkhigh := hhi _ _ (le_refl _) hget
    have hmem : lower ∈ ranges := by
      obtain ⟨h, rfl⟩ := List.getElem?_eq_some.1 hget
      exact List.getElem_mem h
    have hnot : ¬ lower.low ≤ value := fun h => hnone lower hmem ⟨h, hkhigh⟩
    simp [hnot]

theorem LinearSelect_of_mem {ranges : List DeterministicSpriteGroupRange}
    (hn : NonOverlapping ranges)
    (default_result : DeterministicSpriteGroupResult) (value : Nat)
    {range : DeterministicSpriteGroupRange} (hmem : range ∈ ranges)
    (hcont : range.Contains value) :
    LinearSelect ranges default_result value = range.result := by
  induction ranges with
  | nil => cases hmem
  | cons x rest ih =>
    unfold NonOverlapping at hn
    rw [List.pairwise_cons] at hn
    unfold LinearSelect
    by_cases hx : x.low ≤ value ∧ value ≤ x.high
    · simp only [hx, and_self, if_true]
      rcases List.mem_cons.1 hmem with h | h
      · rw [h]
      · have := hn.1 range h
        have h1 := hcont.1
        have h2 := hcont.2
        omega
    · rw [if_neg hx]
      rcases List.mem_cons.1 hmem with h | h
      · exact absurd (h ▸ hcont) hx
      · exact ih hn.2 h

theorem LinearSelect_of_not_mem (ranges : List DeterministicSpriteGroupRange)
    (default_result : DeterministicSpriteGroupResult) (value : Nat)
    (hnone : ∀ range ∈ ranges, ¬ range.Contains value) :
    LinearSelect ranges default_result value = default_result := by
  induction ranges with
  | nil => rfl
  | cons x rest ih =>
    unfold LinearSelect
    have hx : ¬ (x.low ≤ value ∧ value ≤ x.high) := hnone x (List.mem_cons_self _ _)
    rw [if_neg hx]
    exact ih (fun r hr => hnone r (List.mem_cons_of_mem _ hr))

/-! ## C3: the unavailable variable -/

theorem FetchAdjust_unavailable {ext : Externals} {resolve : ResolveFn}
    {adjust : DeterministicSpriteGroupAdjust} {scope last_value : Nat} {object : ResolverObject}
    {profilers : List NewGRFProfiler}
    (h : (FetchAdjust ext resolve adjust scope last_value object profilers).map
      (fun r => r.2.1) = some false) :
    ∃ value, FetchAdjust ext resolve adjust scope last_value object profilers
      = some (value, false, object, profilers) := by
  unfold FetchAdjust at h ⊢
  by_cases h1 : adjust.var = 0x7E
  · rw [if_pos h1] at h
    cases hr : resolve adjust.subroutine object profilers false with
    | none => simp [hr] at h
    | some r =>
      obtain ⟨subgroup, object', profilers'⟩ := r
      cases subgroup <;> simp [hr] at h
  · rw [if_neg h1] at h ⊢
    by_cases h2 : adjust.var = 0x7B
    · rw [if_pos h2] at h ⊢
      simp only [Option.map_some', Option.some.injEq] at h
      exact ⟨_, by rw [h]⟩
    · rw [if_neg h2] at h ⊢
      simp only [Option.map_some', Option.some.injEq] at h
      exact ⟨_, by rw [h]⟩

theorem RunAdjusts_append (ext : Externals) (resolve : ResolveFn)
    (size : DeterministicSpriteGroupSize) (scope : Nat)
    (pre rest : List DeterministicSpriteGroupAdjust) :
    ∀ (last_value value : Nat) (object : ResolverObject) (profilers : List NewGRFProfiler)
      (last_value' value' : Nat) (object' : ResolverObject) (profilers' : List NewGRFProfiler),
      RunAdjusts ext resolve size scope pre last_value value object profilers
          = some (.finished last_value' value' object' profilers') →
      RunAdjusts ext resolve size scope (pre ++ rest) last_value value object profilers
        = RunAdjusts ext resolve size scope rest last_value' value' object' profilers' := by
  induction pre with
  | nil =>
    intro last_value value object profilers last_value' value' object' profilers' h
    simp only [RunAdjusts, Option.some.injEq, ChainResult.finished.injEq] at h
    obtain ⟨rfl, rfl, rfl, rfl⟩ := h
    rfl
  | cons a pre ih =>
    intro last_value value object profilers last_value' value' object' profilers' h
    simp only [List.cons_append, RunAdjusts] at h ⊢
    cases hf : FetchAdjust ext resolve a scope last_value object profilers with
    | none => simp [hf] at h
    | some r =>
      obtain ⟨v, available, o, p⟩ := r
      simp only [hf] at h ⊢
      cases available with
      | false => simp at h
      | true =>
        simp only [Bool.true_eq_false, if_false] at h ⊢
        cases he : EvalAdjustT size a o scope (toU size last_value) v with
        | none => simp [he] at h
        | some e =>
          obtain ⟨v2, o2⟩ := e
          simp only [he] at h ⊢
          exact ih _ _ _ _ _ _ _ _ h

/-- C3: in `DeterministicSpriteGroup::Resolve`, when the adjustments before the k-th one were all
fetched and evaluated (leaving the locals `last_value`, `value` and the state `object'`,
`profilers'`) and the fetch of the k-th adjustment reports the variable unavailable, the result
of the node is exactly the result of resolving its error group, non-top-level, in that state:
whatever the k-th and the later adjustments, the ranges and the default are, they contribute
nothing, and `last_value` of the object is not written by the node. -/
theorem DeterministicSpriteGroup_Resolve_unavailable (ext : Externals) (resolve : ResolveFn)
    (g : DeterministicSpriteGroup) (object : ResolverObject) (profilers : List NewGRFProfiler)
    (pre post : List DeterministicSpriteGroupAdjust) (adjust : DeterministicSpriteGroupAdjust)
    (last_value value : Nat) (object' : ResolverObject) (profilers' : List NewGRFProfiler)
    (hadj : g.adjusts = pre ++ adjust :: post)
    (hpre : RunAdjusts ext resolve g.size (object.GetScope g.var_scope 0) pre 0 0 object profilers
      = some (.finished last_value value object' profilers'))
    (hun : (FetchAdjust ext resolve adjust (object.GetScope g.var_scope 0) last_value object'
      profilers').map (fun r => r.2.1) = some false) :
    g.Resolve ext resolve object profilers = resolve g.error_group object' profilers' false := by
  obtain ⟨x, hx⟩ := FetchAdjust_unavailable hun
  unfold DeterministicSpriteGroup.Resolve
  rw [hadj, RunAdjusts_append ext resolve g.size _ pre (adjust :: post) _ _ _ _ _ _ _ _ hpre]
  simp [RunAdjusts, hx]

/-- Witness of `DeterministicSpriteGroup_Resolve_unavailable`: in `exGroupUnavailable` the second
adjustment reads a variable the base scope does not have; the node resolves to the callback
result 42 of its error group and the later STO leaves no trace in the registers. -/
theorem DeterministicSpriteGroup_Resolve_unavailable_witness :
    RunAdjusts exExt (SpriteGroup.Resolve exExt exPool 1) exGroupUnavailable.size
        (exObject.GetScope exGroupUnavailable.var_scope 0) [exAdjust .DSGA_OP_RST 0x0C 0] 0 0
        exObject [] = some (.finished 7 7 exObject [])
      ∧ (FetchAdjust exExt (SpriteGroup.Resolve exExt exPool 1) (exAdjust .DSGA_OP_ADD 0x40 0)
          (exObject.GetScope exGroupUnavailable.var_scope 0) 7 exObject []).map
          (fun r => r.2.1) = some false
      ∧ SpriteGroup.Resolve exExt exPool 1 exGroupUnavailable.error_group exObject [] false
          = some (.callback 42, exObject, [])
      ∧ exGroupUnavailable.Resolve exExt (SpriteGroup.Resolve exExt exPool 1) exObject []
          = SpriteGroup.Resolve exExt exPool 1 exGroupUnavailable.error_group exObject [] false :=
  ⟨rfl, rfl, rfl,
    DeterministicSpriteGroup_Resolve_unavailable exExt (SpriteGroup.Resolve exExt exPool 1)
      exGroupUnavailable exObject [] [exAdjust .DSGA_OP_RST 0x0C 0]
      [exAdjust .DSGA_OP_STO 0x0C 0] (exAdjust .DSGA_OP_ADD 0x40 0) 7 7 exObject [] rfl rfl rfl⟩

/-! ## C4: the selected range -/

/-- C4: for a range list whose ranges are closed intervals with `low ≤ high`, pairwise
non-overlapping and sorted ascending by upper bound, of any length (linear scan up to four
ranges, binary search above), and for every scalar: the selection is the result of the range
that contains the scalar when there is one, and the default result when no range contains it. -/
theorem SelectResult_spec (ranges : List DeterministicSpriteGroupRange)
    (default_result : DeterministicSpriteGroupResult) (value : Nat)
    (hc : RangesClosed ranges) (hs : SortedByHigh ranges) (hn : NonOverlapping ranges) :
    (∀ range ∈ ranges, range.Contains value →
        SelectResult ranges default_result value = some range.result)
      ∧ ((∀ range ∈ ranges, ¬ range.Contains value) →
        SelectResult ranges default_result value = some default_result) := by
  unfold SelectResult
  by_cases hlen : ranges.length > 4
  · simp only [hlen, if_true]
    exact ⟨fun range hmem hcont => BinarySelect_of_mem hc hs hn default_result value hmem hcont,
      fun hnone => BinarySelect_of_not_mem hs default_result value hnone⟩
  · simp only [hlen, if_false]
    exact ⟨fun range hmem hcont => by rw [LinearSelect_of_mem hn default_result value hmem hcont],
      fun hnone => by rw [LinearSelect_of_not_mem ranges default_result value hnone]⟩

/-- Witness of `SelectResult_spec`: with `[0,9] → A`, `[10,19] → B` and default `D` the scalar 5
selects `A`, 15 selects `B` and 25 selects `D`; with five ranges 25 selects the third range. -/
theorem SelectResult_spec_witness :
    (RangesClosed exRanges2 ∧ SortedByHigh exRanges2 ∧ NonOverlapping exRanges2)
      ∧ SelectResult exRanges2 (exResult 3) 5 = some (exResult 1)
      ∧ SelectResult exRanges2 (exResult 3) 15 = some (exResult 2)
      ∧ SelectResult exRanges2 (exResult 3) 25 = some (exResult 3)
      ∧ (RangesClosed exRanges5 ∧ SortedByHigh exRanges5 ∧ NonOverlapping exRanges5)
      ∧ SelectResult exRanges5 (exResult 3) 25 = some (exResult 4) :=
  ⟨⟨by unfold RangesClosed; decide, by unfold SortedByHigh; decide,
      by unfold NonOverlapping; decide⟩,
    (SelectResult_spec exRanges2 (exResult 3) 5 (by unfold RangesClosed; decide)
      (by unfold SortedByHigh; decide) (by unfold NonOverlapping; decide)).1
      ⟨exResult 1, 0, 9⟩ (by decide) ⟨by decide, by decide⟩,
    (SelectResult_spec exRanges2 (exResult 3) 15 (by unfold RangesClosed; decide)
      (by unfold SortedByHigh; decide) (by unfold NonOverlapping; decide)).1
      ⟨exResult 2, 10, 19⟩ (by decide) ⟨by decide, by decide⟩,
    (SelectResult_spec exRanges2 (exResult 3) 25 (by unfold RangesClosed; decide)
      (by unfold SortedByHigh; decide) (by unfold NonOverlapping; decide)).2
      (by unfold DeterministicSpriteGroupRange.Contains; decide),
    ⟨by unfold RangesClosed; decide, by unfold SortedByHigh; decide,
      by unfold NonOverlapping; decide⟩,
    (SelectResult_spec exRanges5 (exResult 3) 25 (by unfold RangesClosed; decide)
      (by unfold SortedByHigh; decide) (by unfold NonOverlapping; decide)).1
      ⟨exResult 4, 20, 29⟩ (by decide) ⟨by decide, by decide⟩⟩

/-! ## C5: binary search against linear scan -/

/-- C5, with the closedness the code relies on: for every range list whose ranges have
`low ≤ high`, are pairwise non-overlapping and are sorted ascending by upper bound, and for
every scalar, the binary-search selection (whose assertion then holds) and the linear
first-match scan select the same result on that list and default. -/
theorem BinarySelect_eq_LinearSelect (ranges : List DeterministicSpriteGroupRange)
    (default_result : DeterministicSpriteGroupResult) (value : Nat)
    (hc : RangesClosed ranges) (hs : SortedByHigh ranges) (hn : NonOverlapping ranges) :
    BinarySelect ranges default_result value = some (LinearSelect ranges default_result value) := by
  by_cases h : ∃ range ∈ ranges, range.Contains value
  · obtain ⟨range, hmem, hcont⟩ := h
    rw [BinarySelect_of_mem hc hs hn default_result value hmem hcont,
      LinearSelect_of_mem hn default_result value hmem hcont]
  · have hnone : ∀ range ∈ ranges, ¬ range.Contains value :=
      fun range hmem hcont => h ⟨range, hmem, hcont⟩
    rw [BinarySelect_of_not_mem hs default_result value hnone,
      LinearSelect_of_not_mem ranges default_result value hnone]

/-- Witness of `BinarySelect_eq_LinearSelect`: the five ranges `[0,9]` .. `[40,49]` at 25. -/
theorem BinarySelect_eq_LinearSelect_witness :
    (RangesClosed exRanges5 ∧ SortedByHigh exRanges5 ∧ NonOverlapping exRanges5)
      ∧ LinearSelect exRanges5 (exResult 3) 25 = exResult 4
      ∧ BinarySelect exRanges5 (exResult 3) 25
          = some (LinearSelect exRanges5 (exResult 3) 25) :=
  ⟨⟨by unfold RangesClosed; decide, by unfold SortedByHigh; decide,
      by unfold NonOverlapping; decide⟩, by decide,
    BinarySelect_eq_LinearSelect exRanges5 (exResult 3) 25 (by unfold RangesClosed; decide)
      (by unfold SortedByHigh; decide) (by unfold NonOverlapping; decide)⟩

/-- C5 as stated fails: the list `exRangesOpen` is sorted ascending by upper bound and no two of
its ranges overlap, yet at the scalar 2 the binary search stops at the first range (upper bound
3, lower bound 9) and selects the default, while the linear scan selects the second range
`[1,4]`. -/
theorem BinarySelect_LinearSelect_counterexample :
    SortedByHigh exRangesOpen ∧ NonOverlapping exRangesOpen
      ∧ BinarySelect exRangesOpen (exResult 3) 2 = some (exResult 3)
      ∧ LinearSelect exRangesOpen (exResult 3) 2 = exResult 2
      ∧ BinarySelect exRangesOpen (exResult 3) 2
          ≠ some (LinearSelect exRangesOpen (exResult 3) 2) :=
  ⟨by unfold SortedByHigh; decide, by unfold NonOverlapping; decide, by decide, by decide,
    by decide⟩

/-! ## C6: the indirect variable 0x7B -/

/-- C6, as the code has it: for an adjustment whose variable is 0x7B the fetch is
`GetVariable(object, scope, adjust.parameter, last_value, available)`: the variable whose id is
the adjustment's stored parameter is read, with the current `last_value` of the chain passed as
that variable's parameter, and the state is not touched. So with stored parameter 0x7D the
fetch reads the register whose index is `last_value`. -/
theorem FetchAdjust_indirect (ext : Externals) (resolve : ResolveFn)
    (adjust : DeterministicSpriteGroupAdjust) (scope last_value : Nat) (object : ResolverObject)
    (profilers : List NewGRFProfiler) (h : adjust.var = 0x7B) :
    FetchAdjust ext resolve adjust scope last_value object profilers
        = some ((GetVariable ext object scope adjust.parameter last_value true).1,
            (GetVariable ext object scope adjust.parameter last_value true).2, object, profilers)
      ∧ (adjust.parameter = 0x7D →
          FetchAdjust ext resolve adjust scope last_value object profilers
            = some (toU32 (object.GetRegister last_value), true, object, profilers)) := by
  have h1 : FetchAdjust ext resolve adjust scope last_value object profilers
      = some ((GetVariable ext object scope adjust.parameter last_value true).1,
          (GetVariable ext object scope adjust.parameter last_value true).2, object, profilers) := by
    unfold FetchAdjust
    rw [if_neg (by rw [h]; decide), if_pos h]
  refine ⟨h1, fun hp => ?_⟩
  rw [h1, hp]
  simp [GetVariable]

/-- Witness of `FetchAdjust_indirect`: with stored parameter 0x7D, `last_value` 0x0C and
register 0x0C holding 99 the fetch yields 99. -/
theorem FetchAdjust_indirect_witness :
    (exAdjust .DSGA_OP_ADD 0x7B 0x7D).var = 0x7B
      ∧ FetchAdjust exExt (SpriteGroup.Resolve exExt exPool 1) (exAdjust .DSGA_OP_ADD 0x7B 0x7D) 0
          0x0C (exObject.SetRegister 0x0C 99) []
        = some (toU32 ((exObject.SetRegister 0x0C 99).GetRegister 0x0C), true,
            exObject.SetRegister 0x0C 99, []) :=
  ⟨rfl,
    (FetchAdjust_indirect exExt (SpriteGroup.Resolve exExt exPool 1)
      (exAdjust .DSGA_OP_ADD 0x7B 0x7D) 0 0x0C (exObject.SetRegister 0x0C 99) [] rfl).2 rfl⟩

/-- C6 as stated fails: with stored parameter 0x7D, `last_value` 0x0C, callback id 7 and
register 0x0C holding 99, the fetch yields 99 (register `last_value`), not the value 7 of the
variable whose id is `last_value` (0x0C, the callback id) with parameter 0x7D. -/
theorem FetchAdjust_indirect_counterexample :
    (FetchAdjust exExt (SpriteGroup.Resolve exExt exPool 1) (exAdjust .DSGA_OP_ADD 0x7B 0x7D) 0
        0x0C (exObject.SetRegister 0x0C 99) []).map (fun r => (r.1, r.2.1)) = some (99, true)
      ∧ GetVariable exExt (exObject.SetRegister 0x0C 99) 0 0x0C 0x7D true = (7, true)
      ∧ (FetchAdjust exExt (SpriteGroup.Resolve exExt exPool 1) (exAdjust .DSGA_OP_ADD 0x7B 0x7D) 0
        0x0C (exObject.SetRegister 0x0C 99) []).map (fun r => (r.1, r.2.1))
        ≠ some (GetVariable exExt (exObject.SetRegister 0x0C 99) 0 0x0C 0x7D true) := by
  decide

/-! ## C7: the procedure call 0x7E -/

/-- C7: for an adjustment whose variable is 0x7E the fetched value is the callback result of
resolving the subroutine, non-top-level, when that resolution produces a callback result, and
0xFFFF when it produces anything else; the fetch has a result exactly when that resolution has
one, in the state it leaves, and is then always reported available. With an absent subroutine
the value is 0xFFFF and the state is unchanged. The fetch does not depend on the scope or on
`last_value` (no `GetVariable`), and the loop goes on to evaluate this adjustment on the
fetched value. -/
theorem FetchAdjust_procedure (ext : Externals) (resolve : ResolveFn)
    (adjust : DeterministicSpriteGroupAdjust) (scope last_value : Nat) (object : ResolverObject)
    (profilers : List NewGRFProfiler) (h : adjust.var = 0x7E) :
    (∀ v object' profilers',
        resolve adjust.subroutine object profilers false = some (.callback v, object', profilers') →
        FetchAdjust ext resolve adjust scope last_value object profilers
          = some (v, true, object', profilers'))
      ∧ (∀ r object' profilers',
        resolve adjust.subroutine object profilers false = some (r, object', profilers') →
        (∀ v, r ≠ .callback v) →
        FetchAdjust ext resolve adjust scope last_value object profilers
          = some (0xFFFF, true, object', profilers'))
      ∧ (resolve adjust.subroutine object profilers false = none ↔
        FetchAdjust ext resolve adjust scope last_value object profilers = none)
      ∧ (∀ pool budget, adjust.subroutine = none →
        FetchAdjust ext (SpriteGroup.Resolve ext pool budget) adjust scope last_value object
          profilers = some (0xFFFF, true, object, profilers))
      ∧ (∀ scope' last_value',
        FetchAdjust ext resolve adjust scope' last_value' object profilers
          = FetchAdjust ext resolve adjust scope last_value object profilers)
      ∧ (∀ x available object' profilers' size rest value,
        FetchAdjust ext resolve adjust scope last_value object profilers
          = some (x, available, object', profilers') →
        available = true
          ∧ RunAdjusts ext resolve size scope (adjust :: rest) last_value value object profilers
            = (EvalAdjustT size adjust object' scope (toU size last_value) x).bind
                (fun e => RunAdjusts ext resolve size scope rest e.1 e.1 e.2 profilers')) := by
  have key : ∀ (res : ResolveFn) (sc lv : Nat),
      FetchAdjust ext res adjust sc lv object profilers
        = match res adjust.subroutine object profilers false with
          | none => none
          | some (subgroup, object, profilers) =>
            match subgroup with
            | .callback subvalue => some (subvalue, true, object, profilers)
            | _ => some (0xFFFF, true, object, profilers) := by
    intro res sc lv
    unfold FetchAdjust
    rw [if_pos h]
  refine ⟨?_, ?_, ?_, ?_, ?_, ?_⟩
  · intro v object' profilers' hr
    rw [key, hr]
  · intro r object' profilers' hr hne
    rw [key, hr]
    cases r with
    | callback v => exact absurd rfl (hne v)
    | monostate => rfl
    | group p => rfl
  · rw [key]
    cases hr : resolve adjust.subroutine object profilers false with
    | none => simp
    | some r =>
      obtain ⟨subgroup, object', profilers'⟩ := r
      cases subgroup <;> simp
  · intro pool budget hsub
    rw [key, hsub]
    cases budget <;> rfl
  · intro scope' last_value'
    rw [key, key]
  · intro x available object' profilers' size rest value hf
    have hav : available = true := by
      rw [key] at hf
      cases hr : resolve adjust.subroutine object profilers false with
      | none => simp [hr] at hf
      | some r =>
        obtain ⟨subgroup, o, p⟩ := r
        cases subgroup <;> simp [hr] at hf <;> exact hf.2.1
    subst hav
    refine ⟨rfl, ?_⟩
    simp only [RunAdjusts, hf, Bool.true_eq_false, if_false]
    cases EvalAdjustT size adjust object' scope (toU size last_value) x with
    | none => rfl
    | some e => rfl

/-- Witness of `FetchAdjust_procedure`: the procedure call of the callback-result group 42. -/
theorem FetchAdjust_procedure_witness :
    exAdjustProcedure.var = 0x7E
      ∧ SpriteGroup.Resolve exExt exPool 1 exAdjustProcedure.subroutine exObject [] false
          = some (.callback 42, exObject, [])
      ∧ FetchAdjust exExt (SpriteGroup.Resolve exExt exPool 1) exAdjustProcedure 0 0 exObject []
          = some (42, true, exObject, []) :=
  ⟨rfl, rfl,
    (FetchAdjust_procedure exExt (SpriteGroup.Resolve exExt exPool 1) exAdjustProcedure 0 0
      exObject [] rfl).1 42 exObject [] rfl⟩

/-! ## C8: the comparisons SCMP and UCMP -/

theorem toU_small (w : DeterministicSpriteGroupSize) :
    toU w 0 = 0 ∧ toU w 1 = 1 ∧ toU w 2 = 2 := by
  cases w <;> decide

/-- C8: for every width, accumulator and operand `v` (the fetched value after shift, mask and
sub-mode), SCMP returns 0 when `last_value < v`, 1 when they are equal and 2 when
`last_value > v`, both read as signed integers of the width, and UCMP returns the same three
codes with both read as unsigned integers of the width; neither writes anything. In particular
SCMP(-1, 2) = 0 at every width. -/
theorem EvalAdjustT_compare (w : DeterministicSpriteGroupSize)
    (adjust : DeterministicSpriteGroupAdjust) (object : ResolverObject) (scope : Nat)
    (last_value value v : Nat) (hv : AdjustValue w adjust value = some v) :
    (adjust.operation = .DSGA_OP_SCMP →
      EvalAdjustT w adjust object scope last_value value
        = some (if toS w last_value < toS w v then 0
            else if toS w last_value = toS w v then 1 else 2, object))
    ∧ (adjust.operation = .DSGA_OP_UCMP →
      EvalAdjustT w adjust object scope last_value value
        = some (if toU w last_value < toU w v then 0
            else if toU w last_value = toU w v then 1 else 2, object))
    ∧ EvalOperation w .DSGA_OP_SCMP object scope (toU w (-1)) 2 = some (0, object) := by
  obtain ⟨h0, h1, h2⟩ := toU_small w
  refine ⟨fun hop => ?_, fun hop => ?_, ?_⟩
  · simp only [EvalAdjustT, hv, hop, EvalOperation, Option.some_bind]
    by_cases heq : toS w last_value = toS w v
    · simp [heq, h1]
    · by_cases hlt : toS w last_value < toS w v
      · simp [heq, hlt, h0]
      · simp [heq, hlt, h2]
  · simp only [EvalAdjustT, hv, hop, EvalOperation, Option.some_bind]
    by_cases heq : toU w last_value = toU w v
    · simp [heq, h1]
    · by_cases hlt : toU w last_value < toU w v
      · simp [heq, hlt, h0]
      · simp [heq, hlt, h2]
  · cases w <;> rfl

/-- Witness of `EvalAdjustT_compare`: the byte SCMP of 255 (that is -1) with 2 gives 0, the byte
UCMP of the same operands gives 2. -/
theorem EvalAdjustT_compare_witness :
    AdjustValue .DSG_SIZE_BYTE (exAdjust .DSGA_OP_SCMP 0x1A 0) 2 = some 2
      ∧ EvalAdjustT .DSG_SIZE_BYTE (exAdjust .DSGA_OP_SCMP 0x1A 0) exObject 0 255 2
          = some (0, exObject)
      ∧ EvalAdjustT .DSG_SIZE_BYTE (exAdjust .DSGA_OP_UCMP 0x1A 0) exObject 0 255 2
          = some (2, exObject) :=
  ⟨by decide,
    (EvalAdjustT_compare .DSG_SIZE_BYTE (exAdjust .DSGA_OP_SCMP 0x1A 0) exObject 0 255 2 2
      (by decide)).1 rfl,
    (EvalAdjustT_compare .DSG_SIZE_BYTE (exAdjust .DSGA_OP_UCMP 0x1A 0) exObject 0 255 2 2
      (by decide)).2.1 rfl⟩

/-! ## C9: shift and rotate amounts -/

/-- C9: for every width and each of SHL, SHR, SAR and ROR, the result depends on the operand
only through its low 5 bits: the operation applied to `last_value` and `v` equals the operation
applied to `last_value` and `v mod 32`, and so two adjustments with the same operation whose
operands (after shift, mask and sub-mode) are `v` and `v mod 32` evaluate alike. -/
theorem EvalAdjustT_shift_amount (w : DeterministicSpriteGroupSize)
    (adjust adjust' : DeterministicSpriteGroupAdjust) (object : ResolverObject) (scope : Nat)
    (last_value value value' v : Nat)
    (hop : adjust.operation = .DSGA_OP_SHL ∨ adjust.operation = .DSGA_OP_SHR
      ∨ adjust.operation = .DSGA_OP_SAR ∨ adjust.operation = .DSGA_OP_ROR)
    (hop' : adjust'.operation = adjust.operation)
    (hv : AdjustValue w adjust value = some v)
    (hv' : AdjustValue w adjust' value' = some (v % 32)) :
    EvalOperation w adjust.operation object scope last_value v
        = EvalOperation w adjust.operation object scope last_value (v % 32)
      ∧ EvalAdjustT w adjust object scope last_value value
        = EvalAdjustT w adjust' object scope last_value value' := by
  have key : EvalOperation w adjust.operation object scope last_value v
      = EvalOperation w adjust.operation object scope last_value (v % 32) := by
    have h1 := toU_and_31 w v
    have h2 := toU_and_31 w (v % 32)
    rw [Nat.mod_mod] at h2
    rcases hop with h | h | h | h <;>
      simp only [h, EvalOperation, h1, h2]
  refine ⟨key, ?_⟩
  simp only [EvalAdjustT, hv, hv', hop', Option.some_bind]
  exact key

/-- Witness of `EvalAdjustT_shift_amount`: SHL(1, 33) = SHL(1, 1), both 2, at dword width. -/
theorem EvalAdjustT_shift_amount_witness :
    AdjustValue .DSG_SIZE_DWORD (exAdjust .DSGA_OP_SHL 0x1A 0) 33 = some 33
      ∧ AdjustValue .DSG_SIZE_DWORD (exAdjust .DSGA_OP_SHL 0x1A 0) 1 = some (33 % 32)
      ∧ EvalAdjustT .DSG_SIZE_DWORD (exAdjust .DSGA_OP_SHL 0x1A 0) exObject 0 1 1
          = some (2, exObject)
      ∧ EvalAdjustT .DSG_SIZE_DWORD (exAdjust .DSGA_OP_SHL 0x1A 0) exObject 0 1 33
          = EvalAdjustT .DSG_SIZE_DWORD (exAdjust .DSGA_OP_SHL 0x1A 0) exObject 0 1 1 :=
  ⟨by decide, by decide, rfl,
    (EvalAdjustT_shift_amount .DSG_SIZE_DWORD (exAdjust .DSGA_OP_SHL 0x1A 0)
      (exAdjust .DSGA_OP_SHL 0x1A 0) exObject 0 1 33 1 33 (Or.inl rfl) rfl (by decide)
      (by decide)).2⟩

/-! ## C10: the terminal interpretation -/

theorem GB_low15 (value : Nat) : GB value 0 15 = value % 2 ^ 15 := by
  unfold GB
  rw [Nat.shiftRight_zero, Nat.and_pow_two_sub_one_eq_mod]

/-- C10: when the adjustment loop ends with the scalar `value` and the range selection picks
`result`: if `result` is marked calculated, `DeterministicSpriteGroup::Resolve` returns the
callback result `value mod 2^15` (below 0x8000) in the state the loop left, with `last_value`
written, and resolves no child; otherwise it returns the result of resolving the selected child
(possibly absent), non-top-level, in that state. -/
theorem DeterministicSpriteGroup_Resolve_terminal (ext : Externals) (resolve : ResolveFn)
    (g : DeterministicSpriteGroup) (object : ResolverObject) (profilers : List NewGRFProfiler)
    (last_value value : Nat) (object' : ResolverObject) (profilers' : List NewGRFProfiler)
    (result : DeterministicSpriteGroupResult)
    (hrun : RunAdjusts ext resolve g.size (object.GetScope g.var_scope 0) g.adjusts 0 0 object
      profilers = some (.finished last_value value object' profilers'))
    (hsel : SelectResult g.ranges g.default_result value = some result) :
    (result.calculated_result = true →
        g.Resolve ext resolve object profilers
            = some (.callback (value % 2 ^ 15), { object' with last_value := last_value },
                profilers')
          ∧ value % 2 ^ 15 < 0x8000)
      ∧ (result.calculated_result = false →
        g.Resolve ext resolve object profilers
          = resolve result.group { object' with last_value := last_value } profilers' false) := by
  refine ⟨fun hc => ⟨?_, ?_⟩, fun hc => ?_⟩
  · unfold DeterministicSpriteGroup.Resolve
    simp only [hrun, hsel, hc, if_true, GB_low15]
  · exact Nat.mod_lt _ (by norm_num)
  · unfold DeterministicSpriteGroup.Resolve
    simp only [hrun, hsel, hc, Bool.false_eq_true, if_false]

/-- Witness of `DeterministicSpriteGroup_Resolve_terminal`: the scalar 0x12345 with a calculated
default gives the callback result 0x2345. -/
theorem DeterministicSpriteGroup_Resolve_terminal_witness :
    RunAdjusts exExt (SpriteGroup.Resolve exExt exPool 1) exGroupCalculated.size
        (exObjectParam.GetScope exGroupCalculated.var_scope 0) exGroupCalculated.adjusts 0 0
        exObjectParam [] = some (.finished 0x12345 0x12345 exObjectParam [])
      ∧ SelectResult exGroupCalculated.ranges exGroupCalculated.default_result 0x12345
          = some ⟨true, none⟩
      ∧ 0x12345 % 2 ^ 15 = 0x2345
      ∧ exGroupCalculated.Resolve exExt (SpriteGroup.Resolve exExt exPool 1) exObjectParam []
          = some (.callback (0x12345 % 2 ^ 15), { exObjectParam with last_value := 0x12345 }, []) :=
  ⟨rfl, rfl, by decide,
    ((DeterministicSpriteGroup_Resolve_terminal exExt (SpriteGroup.Resolve exExt exPool 1)
      exGroupCalculated exObjectParam [] 0x12345 0x12345 exObjectParam [] ⟨true, none⟩ rfl rfl).1
      rfl).1⟩

/-! ## C11: the child chosen by a randomized group -/

theorem mask_shift_eq (r k b : Nat) (hr : r < 2 ^ 32) :
    (r &&& ((2 ^ k - 1) <<< b) % 2 ^ 32) >>> b = (r >>> b) % 2 ^ k := by
  apply Nat.eq_of_testBit_eq
  intro i
  simp only [Nat.testBit_shiftRight, Nat.testBit_and, Nat.testBit_mod_two_pow,
    Nat.testBit_shiftLeft, Nat.testBit_two_pow_sub_one]
  by_cases h32 : b + i < 32
  · have h1 : b + i ≥ b := by omega
    have h2 : b + i - b = i := by omega
    simp only [h32, h1, h2, decide_True, Bool.true_and]
    exact Bool.and_comm _ _
  · have hfalse : r.testBit (b + i) = false :=
      Nat.testBit_lt_two_pow (lt_of_lt_of_le hr (Nat.pow_le_pow_right (by norm_num) (by omega)))
    simp [hfalse]

theorem RandomizedSpriteGroup_Index_bound (g : RandomizedSpriteGroup) (random_bits : Nat)
    (hn : g.groups ≠ []) :
    toU8 (((random_bits % 2 ^ 32) &&&
      toU32 (toU32 ((g.groups.length : Int) - 1) <<< g.lowest_randbit)) >>> g.lowest_randbit)
        < g.groups.length := by
  have hpos : 0 < g.groups.length := List.length_pos.2 hn
  simp only [toU8, toU32]
  rw [toUnsigned_pred 32 _ hpos]
  refine lt_of_le_of_lt (toUnsigned_natCast_le _ _) ?_
  rw [toUnsigned_natCast, Nat.shiftRight_eq_div_pow]
  have h1 : (random_bits % 2 ^ 32 &&&
      ((g.groups.length - 1) % 2 ^ 32) <<< g.lowest_randbit % 2 ^ 32)
        ≤ ((g.groups.length - 1) % 2 ^ 32) <<< g.lowest_randbit % 2 ^ 32 := Nat.and_le_right
  have h2 : ((g.groups.length - 1) % 2 ^ 32) <<< g.lowest_randbit % 2 ^ 32
      ≤ (g.groups.length - 1) * 2 ^ g.lowest_randbit := by
    rw [Nat.shiftLeft_eq]
    exact le_trans (Nat.mod_le _ _) (Nat.mul_le_mul_right _ (Nat.mod_le _ _))
  have h3 : (random_bits % 2 ^ 32 &&&
      ((g.groups.length - 1) % 2 ^ 32) <<< g.lowest_randbit % 2 ^ 32) / 2 ^ g.lowest_randbit
        ≤ g.groups.length - 1 := by
    apply Nat.div_le_of_le_mul
    rw [Nat.mul_comm]
    exact le_trans h1 h2
  omega

/-- The condition of line 257: the callback is the random-trigger callback and the trigger
comparison of line 255 succeeds. -/
theorem HandleTriggers_cases (ext : Externals) (g : RandomizedSpriteGroup)
    (object : ResolverObject) :
    (object.callback = ext.CBID_RANDOM_TRIGGER
        ∧ (if g.cmp_mode = .RSG_CMP_ANY then
            toU8 (g.triggers &&& object.GetWaitingRandomTriggers) ≠ 0
          else toU8 (g.triggers &&& object.GetWaitingRandomTriggers) = g.triggers)
        ∧ g.HandleTriggers ext object
          = if 64 ≤ g.lowest_randbit then none
            else
              some { object.AddUsedRandomTriggers
                  (toU8 (g.triggers &&& object.GetWaitingRandomTriggers)) with
                reseed := fun s =>
                  if s = g.var_scope then
                    (object.reseed s |||
                      toUnsigned 64 (toUnsigned 64 ((g.groups.length : Int) - 1)
                        <<< g.lowest_randbit)) % 2 ^ 32
                  else object.reseed s })
      ∨ (¬ (object.callback = ext.CBID_RANDOM_TRIGGER
          ∧ (if g.cmp_mode = .RSG_CMP_ANY then
              toU8 (g.triggers &&& object.GetWaitingRandomTriggers) ≠ 0
            else toU8 (g.triggers &&& object.GetWaitingRandomTriggers) = g.triggers))
        ∧ g.HandleTriggers ext object = some object) := by
  unfold RandomizedSpriteGroup.HandleTriggers
  by_cases hcb : object.callback = ext.CBID_RANDOM_TRIGGER
  · by_cases hres : (if g.cmp_mode = .RSG_CMP_ANY then
        toU8 (g.triggers &&& object.GetWaitingRandomTriggers) ≠ 0
      else toU8 (g.triggers &&& object.GetWaitingRandomTriggers) = g.triggers)
    · rw [if_pos hcb, if_pos hres]
      exact Or.inl ⟨hcb, hres, rfl⟩
    · rw [if_pos hcb, if_neg hres]
      exact Or.inr ⟨fun h => hres h.2, rfl⟩
  · rw [if_neg hcb]
    exact Or.inr ⟨fun h => hcb h.1, rfl⟩

theorem HandleTriggers_scopes (ext : Externals) (g : RandomizedSpriteGroup)
    (object object' : ResolverObject) (h : g.HandleTriggers ext object = some object') :
    object'.scopes = object.scopes ∧ object'.GetScope = object.GetScope := by
  rcases HandleTriggers_cases ext g object with ⟨_, _, heq⟩ | ⟨_, heq⟩
  · rw [heq] at h
    split at h
    · cases h
    · simp only [Option.some.injEq] at h
      subst h
      exact ⟨rfl, rfl⟩
  · rw [heq] at h
    simp only [Option.some.injEq] at h
    subst h
    exact ⟨rfl, rfl⟩

theorem HandleTriggers_isSome (ext : Externals) (g : RandomizedSpriteGroup)
    (object : ResolverObject) (hb : g.lowest_randbit < 64) :
    ∃ object', g.HandleTriggers ext object = some object' := by
  have hnb : ¬ 64 ≤ g.lowest_randbit := by omega
  rcases HandleTriggers_cases ext g object with ⟨_, _, heq⟩ | ⟨_, heq⟩
  · rw [heq, if_neg hnb]
    exact ⟨_, rfl⟩
  · exact ⟨_, heq⟩

theorem RandomizedSpriteGroup_Index_eq (g : RandomizedSpriteGroup) (k : Nat)
    (hn : g.groups.length = 2 ^ k) (hk : k ≤ 8) (hb : g.lowest_randbit < 32) (r : Nat) :
    g.Index r = some (((r % 2 ^ 32) >>> g.lowest_randbit) % 2 ^ k) := by
  have hnb : ¬ 32 ≤ g.lowest_randbit := by omega
  have hpos : 0 < 2 ^ k := by positivity
  have h256 : 2 ^ k ≤ 2 ^ 8 := Nat.pow_le_pow_right (by norm_num) hk
  unfold RandomizedSpriteGroup.Index
  rw [if_neg hnb, hn]
  simp only [toU8, toU32]
  have hm : toUnsigned 32 (((2 ^ k : Nat) : Int) - 1) = 2 ^ k - 1 := by
    rw [toUnsigned_pred 32 _ hpos, Nat.mod_eq_of_lt]
    have : (2 : Nat) ^ 8 < 2 ^ 32 := by norm_num
    omega
  rw [hm]
  simp only [toUnsigned_natCast]
  rw [mask_shift_eq _ _ _ (Nat.mod_lt _ (by norm_num)), Nat.mod_eq_of_lt]
  have := Nat.mod_lt ((r % 2 ^ 32) >>> g.lowest_randbit) hpos
  omega

/-- C11, within the index type: for every randomized group whose child count is a power of two
`n = 2^k` not above 256, with lowest bit `b` below 32, the index computed from random bits `r`
is `(r >> b) mod n` (`r` as a 32-bit word); two random-bit values that agree on the bits `b` to
`b + k - 1` give the same index; and `RandomizedSpriteGroup::Resolve` returns the result of
resolving that child, non-top-level, in the object left by the handling of triggers, for every
callback id. -/
theorem RandomizedSpriteGroup_Resolve_child (ext : Externals) (resolve : ResolveFn)
    (g : RandomizedSpriteGroup) (object : ResolverObject) (profilers : List NewGRFProfiler)
    (k : Nat) (hn : g.groups.length = 2 ^ k) (hk : k ≤ 8) (hb : g.lowest_randbit < 32) :
    (∀ r, g.Index r = some (((r % 2 ^ 32) >>> g.lowest_randbit) % 2 ^ k))
      ∧ (∀ r1 r2, ((r1 % 2 ^ 32) >>> g.lowest_randbit) % 2 ^ k
            = ((r2 % 2 ^ 32) >>> g.lowest_randbit) % 2 ^ k →
          g.Index r1 = g.Index r2)
      ∧ ∃ object' child, g.HandleTriggers ext object = some object'
          ∧ g.groups[(((object.scopes (object.GetScope g.var_scope g.count)).GetRandomBits
              % 2 ^ 32) >>> g.lowest_randbit) % 2 ^ k]? = some child
          ∧ g.Resolve ext resolve object profilers = resolve child object' profilers false := by
  have hidx := RandomizedSpriteGroup_Index_eq g k hn hk hb
  refine ⟨hidx, fun r1 r2 h => by rw [hidx r1, hidx r2, h], ?_⟩
  obtain ⟨object', hobj⟩ := HandleTriggers_isSome ext g object (by omega)
  have hsc := (HandleTriggers_scopes ext g object object' hobj).1
  have hlt : (((object.scopes (object.GetScope g.var_scope g.count)).GetRandomBits
      % 2 ^ 32) >>> g.lowest_randbit) % 2 ^ k < g.groups.length := by
    rw [hn]
    exact Nat.mod_lt _ (by positivity)
  refine ⟨object', _, hobj, List.getElem?_eq_getElem hlt, ?_⟩
  unfold RandomizedSpriteGroup.Resolve
  simp only [hobj, hsc, hidx, List.getElem?_eq_getElem hlt]

/-- Witness of `RandomizedSpriteGroup_Resolve_child`: four children, lowest bit 0; the random
bits 0b10 and 0xFFFFFFF2 both select child 2. -/
theorem RandomizedSpriteGroup_Resolve_child_witness :
    exRandomized4.groups.length = 2 ^ 2 ∧ exRandomized4.lowest_randbit < 32
      ∧ exRandomized4.Index 0b10 = some 2
      ∧ exRandomized4.Index 0xFFFFFFF2 = exRandomized4.Index 0b10 :=
  ⟨rfl, by decide,
    (RandomizedSpriteGroup_Resolve_child exExt (SpriteGroup.Resolve exExt exPool 1) exRandomized4
      exObject [] 2 rfl (by decide) (by decide)).1 0b10,
    (RandomizedSpriteGroup_Resolve_child exExt (SpriteGroup.Resolve exExt exPool 1) exRandomized4
      exObject [] 2 rfl (by decide) (by decide)).2.1 0xFFFFFFF2 0b10 (by decide)⟩

/-- C11 as stated fails: with 512 children (a power of two) and lowest bit 0, the random bits
256 give the index 0 after the truncation to 8 bits, so child 0 is resolved and not child
`(256 >> 0) mod 512 = 256`; and with lowest bit 32 the shift has no defined result. -/
theorem RandomizedSpriteGroup_Index_counterexample :
    (exRandomized512 0).groups.length = 2 ^ 9
      ∧ (exRandomized512 0).Index 256 = some 0
      ∧ ((256 % 2 ^ 32) >>> (exRandomized512 0).lowest_randbit) % 2 ^ 9 = 256
      ∧ (exRandomized512 0).groups[0]? = some (some 0)
      ∧ (exRandomized512 0).groups[256]? = some (some 256)
      ∧ (exRandomized512 32).Index 256 = none := by
  have hlen : (exRandomized512 0).groups.length = 512 := by
    simp [exRandomized512]
  refine ⟨by rw [hlen]; norm_num, ?_, by decide, ?_, ?_, rfl⟩
  · unfold RandomizedSpriteGroup.Index
    rw [hlen]
    decide
  · simp [exRandomized512]
  · simp [exRandomized512]

/-! ## C12: triggers and reseed masks -/

theorem or_mod_two_pow_eq (a b n : Nat) : (a ||| b) % 2 ^ n = (a % 2 ^ n) ||| (b % 2 ^ n) := by
  apply Nat.eq_of_testBit_eq
  intro i
  simp only [Nat.testBit_mod_two_pow, Nat.testBit_or]
  cases decide (i < n) <;> simp

theorem reseed_word_eq (old n b : Nat) (hn : 0 < n) :
    (old ||| toUnsigned 64 (toUnsigned 64 ((n : Int) - 1) <<< b)) % 2 ^ 32
      = (old ||| ((n - 1) <<< b)) % 2 ^ 32 := by
  rw [toUnsigned_pred 64 n hn]
  simp only [toUnsigned_natCast]
  rw [or_mod_two_pow_eq, or_mod_two_pow_eq old]
  congr 1
  have hd : 2 ^ 32 ∣ 2 ^ 64 := Nat.pow_dvd_pow 2 (by norm_num)
  rw [Nat.mod_mod_of_dvd _ hd, Nat.shiftLeft_eq, Nat.shiftLeft_eq, Nat.mul_mod,
    Nat.mod_mod_of_dvd _ hd, ← Nat.mul_mod]

/-- The handling of triggers of lines 252-261, for a non-empty child list and a lowest bit below
64: it has a result `object'`; on the random-trigger callback with a successful comparison the
matched bits are ORed into the used triggers and the reseed mask of the group's scope becomes
the 32-bit word `old | ((child_count - 1) << lowest_randbit)`, nothing else changing; otherwise
the object is unchanged. -/
theorem HandleTriggers_effect (ext : Externals) (g : RandomizedSpriteGroup)
    (object : ResolverObject) (hn : g.groups ≠ []) (hb : g.lowest_randbit < 64) :
    ∃ object', g.HandleTriggers ext object = some object'
      ∧ (object.callback = ext.CBID_RANDOM_TRIGGER →
          ((g.cmp_mode = .RSG_CMP_ANY
              ∧ toU8 (g.triggers &&& object.GetWaitingRandomTriggers) ≠ 0)
            ∨ (g.cmp_mode = .RSG_CMP_ALL
              ∧ toU8 (g.triggers &&& object.GetWaitingRandomTriggers) = g.triggers)) →
          object'.used_random_triggers
              = object.used_random_triggers
                ||| toU8 (g.triggers &&& object.GetWaitingRandomTriggers)
            ∧ object'.reseed g.var_scope
              = (object.reseed g.var_scope
                  ||| ((g.groups.length - 1) <<< g.lowest_randbit)) % 2 ^ 32
            ∧ (object.reseed g.var_scope < 2 ^ 32 →
                (g.groups.length - 1) <<< g.lowest_randbit < 2 ^ 32 →
                object'.reseed g.var_scope
                  = object.reseed g.var_scope ||| ((g.groups.length - 1) <<< g.lowest_randbit))
            ∧ (∀ s, s ≠ g.var_scope → object'.reseed s = object.reseed s)
            ∧ object'.callback = object.callback
            ∧ object'.last_value = object.last_value
            ∧ object'.temp_store = object.temp_store
            ∧ object'.scopes = object.scopes
            ∧ object'.waiting_random_triggers = object.waiting_random_triggers)
      ∧ (¬ (object.callback = ext.CBID_RANDOM_TRIGGER
            ∧ ((g.cmp_mode = .RSG_CMP_ANY
                ∧ toU8 (g.triggers &&& object.GetWaitingRandomTriggers) ≠ 0)
              ∨ (g.cmp_mode = .RSG_CMP_ALL
                ∧ toU8 (g.triggers &&& object.GetWaitingRandomTriggers) = g.triggers))) →
          object' = object)
      ∧ (g.triggers < 256 →
          toU8 (g.triggers &&& object.GetWaitingRandomTriggers)
            = g.triggers &&& object.waiting_random_triggers) := by
  have hpos : 0 < g.groups.length := List.length_pos.2 hn
  have hnb : ¬ 64 ≤ g.lowest_randbit := by omega
  have hcond : ((g.cmp_mode = .RSG_CMP_ANY
        ∧ toU8 (g.triggers &&& object.GetWaitingRandomTriggers) ≠ 0)
      ∨ (g.cmp_mode = .RSG_CMP_ALL
        ∧ toU8 (g.triggers &&& object.GetWaitingRandomTriggers) = g.triggers))
      ↔ (if g.cmp_mode = .RSG_CMP_ANY then
          toU8 (g.triggers &&& object.GetWaitingRandomTriggers) ≠ 0
        else toU8 (g.triggers &&& object.GetWaitingRandomTriggers) = g.triggers) := by
    cases hm : g.cmp_mode <;> simp
  have hbyte : g.triggers < 256 →
      toU8 (g.triggers &&& object.GetWaitingRandomTriggers)
        = g.triggers &&& object.waiting_random_triggers := by
    intro ht
    unfold toU8 ResolverObject.GetWaitingRandomTriggers
    rw [toUnsigned_natCast, Nat.mod_eq_of_lt]
    exact lt_of_le_of_lt Nat.and_le_left (by simpa using ht)
  rcases HandleTriggers_cases ext g object with ⟨hcb, hres, heq⟩ | ⟨hnot, heq⟩
  · rw [if_neg hnb] at heq
    refine ⟨_, heq, fun _ _ => ⟨rfl, ?_, ?_, ?_, rfl, rfl, rfl, rfl, rfl⟩, ?_, hbyte⟩
    · simp only [if_true]
      exact reseed_word_eq _ _ _ hpos
    · intro hold hnew
      simp only [if_true]
      rw [reseed_word_eq _ _ _ hpos, Nat.mod_eq_of_lt]
      exact Nat.or_lt_two_pow hold hnew
    · intro s hs
      simp only [if_neg hs]
    · intro hno
      exact absurd ⟨hcb, hcond.2 hres⟩ hno
  · refine ⟨object, heq, fun hcb hsucc => ?_, fun _ => rfl, hbyte⟩
    exact absurd ⟨hcb, hcond.1 hsucc⟩ hnot

/-- C12, with the reseed mask as the 32-bit word it is: for a randomized group with a non-empty
child list and lowest bit below 32, `RandomizedSpriteGroup::Resolve` returns the result of
resolving the child at the computed index, non-top-level, in an object `object'` such that, with `match`
the node's triggers AND the waiting triggers (as a byte): when the callback is the
random-trigger callback and the comparison succeeds (`match ≠ 0` in ANY mode, `match` equal to
the node's triggers in ALL mode), `match` is ORed into the used triggers, the reseed mask of the
node's scope is `old | ((child_count - 1) << lowest_randbit)` truncated to 32 bits (that
number itself when both operands fit 32 bits), and the reseed masks of all other scopes and all
other fields are unchanged; otherwise `object'` is the object given. -/
theorem RandomizedSpriteGroup_Resolve_triggers (ext : Externals) (resolve : ResolveFn)
    (g : RandomizedSpriteGroup) (object : ResolverObject) (profilers : List NewGRFProfiler)
    (hn : g.groups ≠ []) (hb : g.lowest_randbit < 32) :
    ∃ object' child index,
      g.Index (object.scopes (object.GetScope g.var_scope g.count)).GetRandomBits = some index
      ∧ g.groups[index]? = some child
      ∧ g.Resolve ext resolve object profilers = resolve child object' profilers false
      ∧ (object.callback = ext.CBID_RANDOM_TRIGGER →
          ((g.cmp_mode = .RSG_CMP_ANY
              ∧ toU8 (g.triggers &&& object.GetWaitingRandomTriggers) ≠ 0)
            ∨ (g.cmp_mode = .RSG_CMP_ALL
              ∧ toU8 (g.triggers &&& object.GetWaitingRandomTriggers) = g.triggers)) →
          object'.used_random_triggers
              = object.used_random_triggers
                ||| toU8 (g.triggers &&& object.GetWaitingRandomTriggers)
            ∧ object'.reseed g.var_scope
              = (object.reseed g.var_scope
                  ||| ((g.groups.length - 1) <<< g.lowest_randbit)) % 2 ^ 32
            ∧ (object.reseed g.var_scope < 2 ^ 32 →
                (g.groups.length - 1) <<< g.lowest_randbit < 2 ^ 32 →
                object'.reseed g.var_scope
                  = object.reseed g.var_scope ||| ((g.groups.length - 1) <<< g.lowest_randbit))
            ∧ (∀ s, s ≠ g.var_scope → object'.reseed s = object.reseed s)
            ∧ object'.callback = object.callback
            ∧ object'.last_value = object.last_value
            ∧ object'.temp_store = object.temp_store
            ∧ object'.scopes = object.scopes
            ∧ object'.waiting_random_triggers = object.waiting_random_triggers)
      ∧ (¬ (object.callback = ext.CBID_RANDOM_TRIGGER
            ∧ ((g.cmp_mode = .RSG_CMP_ANY
                ∧ toU8 (g.triggers &&& object.GetWaitingRandomTriggers) ≠ 0)
              ∨ (g.cmp_mode = .RSG_CMP_ALL
                ∧ toU8 (g.triggers &&& object.GetWaitingRandomTriggers) = g.triggers))) →
          object' = object)
      ∧ (g.triggers < 256 →
          toU8 (g.triggers &&& object.GetWaitingRandomTriggers)
            = g.triggers &&& object.waiting_random_triggers) := by
  obtain ⟨object', hobj, hsucc, hfail, hbyte⟩ :=
    HandleTriggers_effect ext g object hn (by omega)
  have hnb : ¬ 32 ≤ g.lowest_randbit := by omega
  have hsc := (HandleTriggers_scopes ext g object object' hobj).1
  have hlt := RandomizedSpriteGroup_Index_bound g
    (object.scopes (object.GetScope g.var_scope g.count)).GetRandomBits hn
  have hidx : g.Index (object.scopes (object.GetScope g.var_scope g.count)).GetRandomBits
      = some (toU8 ((((object.scopes (object.GetScope g.var_scope g.count)).GetRandomBits
          % 2 ^ 32) &&& toU32 (toU32 ((g.groups.length : Int) - 1) <<< g.lowest_randbit))
            >>> g.lowest_randbit)) := by
    unfold RandomizedSpriteGroup.Index
    rw [if_neg hnb]
  refine ⟨object', _, _, hidx, List.getElem?_eq_getElem hlt, ?_, hsucc, hfail, hbyte⟩
  unfold RandomizedSpriteGroup.Resolve
  simp only [hobj, hsc, hidx, List.getElem?_eq_getElem hlt]

/-- Witness of `RandomizedSpriteGroup_Resolve_triggers`: three children, lowest bit 1, triggers
0b11 in ANY mode, waiting trigger bit 0 on the random-trigger callback: the node resolves child
0 (the callback-result group 42) in an object whose used triggers are 1 and whose reseed mask
of scope 0 is `(3 - 1) << 1 = 4`, the mask of scope 1 staying 0. -/
theorem RandomizedSpriteGroup_Resolve_triggers_witness :
    exRandomized3.groups ≠ [] ∧ exRandomized3.lowest_randbit < 32
      ∧ (exRandomized3.Resolve exExt (SpriteGroup.Resolve exExt exPool 1) exObjectTrigger []).map
          (fun r => (r.1, r.2.1.used_random_triggers, r.2.1.reseed 0, r.2.1.reseed 1))
        = some (.callback 42, 1, 4, 0)
      ∧ ∃ object' child,
          exRandomized3.Resolve exExt (SpriteGroup.Resolve exExt exPool 1) exObjectTrigger []
            = SpriteGroup.Resolve exExt exPool 1 child object' [] false
          ∧ object'.used_random_triggers = 1 ∧ object'.reseed 0 = 4 := by
  refine ⟨by decide, by decide, by decide, ?_⟩
  obtain ⟨object', child, _, _, _, hres, hsucc, _, _⟩ :=
    RandomizedSpriteGroup_Resolve_triggers exExt (SpriteGroup.Resolve exExt exPool 1)
      exRandomized3 exObjectTrigger [] (by decide) (by decide)
  obtain ⟨hused, hreseed, _⟩ := hsucc rfl (Or.inl ⟨rfl, by decide⟩)
  exact ⟨object', child, hres, hused, hreseed⟩

/-- C12 as stated fails: with four children and lowest bit 31 on the random-trigger callback
with a matching trigger, the node leaves the reseed mask of its scope at `0x80000000`, not at
the old value 0 ORed with `(4 - 1) << 31 = 0x180000000`: the mask is a 32-bit word. With lowest
bit 40 the shift of line 263 has no defined result, and with no child there is none to look up:
in both cases the node has no result. -/
theorem RandomizedSpriteGroup_Resolve_reseed_counterexample :
    ((exRandomized4At 31).Resolve exExt (SpriteGroup.Resolve exExt exPool 1) exObjectTrigger
        []).map (fun r => (r.1, r.2.1.used_random_triggers, r.2.1.reseed 0))
        = some (.group 10, 1, 0x80000000)
      ∧ exObjectTrigger.reseed 0 ||| (((exRandomized4At 31).groups.length - 1) <<< 31)
        = 0x180000000
      ∧ ((exRandomized4At 31).Resolve exExt (SpriteGroup.Resolve exExt exPool 1) exObjectTrigger
        []).map (fun r => r.2.1.reseed 0)
        ≠ some (exObjectTrigger.reseed 0
            ||| (((exRandomized4At 31).groups.length - 1) <<< 31))
      ∧ (exRandomized4At 40).Resolve exExt (SpriteGroup.Resolve exExt exPool 1) exObjectTrigger
        [] = none
      ∧ exRandomizedEmpty.Resolve exExt (SpriteGroup.Resolve exExt exPool 1) exObjectTrigger []
        = none :=
  ⟨by decide, by decide, by decide, rfl, rfl⟩

/-! ## C13: the absent node -/

/-- C13: `SpriteGroup::Resolve` called with an absent node returns the empty result for every
resolver object and both values of `top_level`, whatever the recursion budget, leaves the
object (with `last_value`, registers, reseed masks and triggers) unchanged and delivers no
event to any profiler. Consequently a deterministic group whose loop ends and whose selected
result is not calculated and has no child resolves to the empty result, and so does a real
sprite group with no loaded and no loading sprite under the `ResolveReal` of lines 121-127. -/
theorem SpriteGroup_Resolve_absent (ext : Externals) (pool : Nat → SpriteGroup) (budget : Nat)
    (object : ResolverObject) (profilers : List NewGRFProfiler) (top_level : Bool) :
    SpriteGroup.Resolve ext pool budget none object profilers top_level
        = some (.monostate, object, profilers)
      ∧ (∀ (g : DeterministicSpriteGroup) last_value value object' profilers' result,
        RunAdjusts ext (SpriteGroup.Resolve ext pool budget) g.size
            (object.GetScope g.var_scope 0) g.adjusts 0 0 object profilers
          = some (.finished last_value value object' profilers') →
        SelectResult g.ranges g.default_result value = some result →
        result.calculated_result = false → result.group = none →
        g.Resolve ext (SpriteGroup.Resolve ext pool budget) object profilers
          = some (.monostate, { object' with last_value := last_value }, profilers'))
      ∧ (∀ (g : RealSpriteGroup) p, g.loaded = [] → g.loading = [] →
        object.ResolveReal g = ResolveRealDefault g →
        SpriteGroup.ResolveNode ext (SpriteGroup.Resolve ext pool budget) p (.Real g) object
          profilers = some (.monostate, object, profilers)) := by
  have hnull : ∀ (b : Nat) (o : ResolverObject) (ps : List NewGRFProfiler) (t : Bool),
      SpriteGroup.Resolve ext pool b none o ps t = some (.monostate, o, ps) := by
    intro b o ps t
    cases b <;> rfl
  refine ⟨hnull _ _ _ _, ?_, ?_⟩
  · intro g last_value value object' profilers' result hrun hsel hcalc hgroup
    unfold DeterministicSpriteGroup.Resolve
    simp only [hrun, hsel, hcalc, hgroup, Bool.false_eq_true, if_false]
    exact hnull _ _ _ _
  · intro g p hloaded hloading hreal
    simp only [SpriteGroup.ResolveNode, hreal, ResolveRealDefault, hloaded, hloading]
    exact hnull _ _ _ _

/-- Witness of `SpriteGroup_Resolve_absent`: the absent node with an active profiler for the
object's mod file, top-level, and the real sprite group without sprites. -/
theorem SpriteGroup_Resolve_absent_witness :
    SpriteGroup.Resolve exExt exPool 0 none exObject [⟨none, true, []⟩] true
        = some (.monostate, exObject, [⟨none, true, []⟩])
      ∧ SpriteGroup.ResolveNode exExt (SpriteGroup.Resolve exExt exPool 0) 7 (.Real ⟨[], []⟩)
          exObject [⟨none, true, []⟩] = some (.monostate, exObject, [⟨none, true, []⟩]) :=
  ⟨(SpriteGroup_Resolve_absent exExt exPool 0 exObject [⟨none, true, []⟩] true).1,
    (SpriteGroup_Resolve_absent exExt exPool 0 exObject [⟨none, true, []⟩] true).2.2 ⟨[], []⟩ 7
      rfl rfl rfl⟩

/-! ## C15: the side effects of the adjustment evaluator -/

theorem EvalOperation_effect (w : DeterministicSpriteGroupSize)
    (operation : DeterministicSpriteGroupAdjustOperation) (object object' : ResolverObject)
    (scope last_value value x : Nat)
    (h : EvalOperation w operation object scope last_value value = some (x, object')) :
    (operation ≠ .DSGA_OP_STO ∧ operation ≠ .DSGA_OP_STOP ∧ object' = object)
      ∨ (operation = .DSGA_OP_STO
          ∧ object' = object.SetRegister (toU w value) (toS w last_value))
      ∨ (operation = .DSGA_OP_STOP
          ∧ object' = object.StorePSA scope (toU w value) (toS w last_value)) := by
  cases operation <;> simp only [EvalOperation] at h
  case DSGA_OP_STO =>
    simp only [Option.some.injEq, Prod.mk.injEq] at h
    exact Or.inr (Or.inl ⟨rfl, h.2.symm⟩)
  case DSGA_OP_STOP =>
    simp only [Option.some.injEq, Prod.mk.injEq] at h
    exact Or.inr (Or.inr ⟨rfl, h.2.symm⟩)
  all_goals
    refine Or.inl ⟨by decide, by decide, ?_⟩
    first
    | (simp only [Option.some.injEq, Prod.mk.injEq] at h
       exact h.2.symm)
    | (split at h
       · simp only [Option.some.injEq, Prod.mk.injEq] at h
         exact h.2.symm
       · first
         | (simp only [Option.map_eq_some', Prod.mk.injEq] at h
            obtain ⟨r, _, _, h2⟩ := h
            exact h2.symm)
         | (split at h
            · cases h
            · simp only [Option.some.injEq, Prod.mk.injEq] at h
              exact h.2.symm))

/-- C15: when `EvalAdjustT` returns, the object it leaves differs from the one it was given
only by its two explicit side effects. An operation other than STO leaves the whole register
file unchanged; an operation other than STOP leaves every scope, with its persistent storage,
unchanged; STO changes at most one register; STOP changes nothing but the persistent storage of
its scope, by one call of that scope's `StorePSA`, hence at most one slot when `StorePSA` writes
only the slot it is given; and no operation changes the callback id and parameters, the shared
`last_value`, the mod file, the reseed masks, the triggers or the virtual methods. -/
theorem EvalAdjustT_frame (w : DeterministicSpriteGroupSize)
    (adjust : DeterministicSpriteGroupAdjust) (object object' : ResolverObject)
    (scope last_value value x : Nat)
    (h : EvalAdjustT w adjust object scope last_value value = some (x, object')) :
    (adjust.operation ≠ .DSGA_OP_STO → object'.temp_store = object.temp_store)
      ∧ (adjust.operation ≠ .DSGA_OP_STOP → object'.scopes = object.scopes)
      ∧ (∃ i, ∀ j, j ≠ i → object'.GetRegister j = object.GetRegister j)
      ∧ (∀ k, k ≠ scope → object'.scopes k = object.scopes k)
      ∧ ((object'.scopes scope).psa = (object.scopes scope).psa
          ∨ ∃ i v, (object'.scopes scope).psa
              = (object.scopes scope).StorePSA i v (object.scopes scope).psa)
      ∧ ((∀ i v s j, j ≠ i → (object.scopes scope).StorePSA i v s j = s j) →
          ∃ i, ∀ j, j ≠ i → (object'.scopes scope).psa j = (object.scopes scope).psa j)
      ∧ ((object'.scopes scope).GetRandomBits = (object.scopes scope).GetRandomBits
          ∧ (object'.scopes scope).GetRandomTriggers = (object.scopes scope).GetRandomTriggers
          ∧ (object'.scopes scope).GetVariable = (object.scopes scope).GetVariable
          ∧ (object'.scopes scope).StorePSA = (object.scopes scope).StorePSA)
      ∧ (object'.callback = object.callback
          ∧ object'.callback_param1 = object.callback_param1
          ∧ object'.callback_param2 = object.callback_param2
          ∧ object'.last_value = object.last_value
          ∧ object'.grffile = object.grffile
          ∧ object'.reseed = object.reseed
          ∧ object'.waiting_random_triggers = object.waiting_random_triggers
          ∧ object'.used_random_triggers = object.used_random_triggers
          ∧ object'.GetScope = object.GetScope
          ∧ object'.ResolveReal = object.ResolveReal) := by
  unfold EvalAdjustT at h
  cases hv : AdjustValue w adjust value with
  | none => simp [hv] at h
  | some v =>
    rw [hv] at h
    rcases EvalOperation_effect w _ object object' scope last_value v x h with
      ⟨_, _, rfl⟩ | ⟨hop, rfl⟩ | ⟨hop, rfl⟩
    · exact ⟨fun _ => rfl, fun _ => rfl, ⟨0, fun _ _ => rfl⟩, fun _ _ => rfl, Or.inl rfl,
        fun _ => ⟨0, fun _ _ => rfl⟩, ⟨rfl, rfl, rfl, rfl⟩,
        ⟨rfl, rfl, rfl, rfl, rfl, rfl, rfl, rfl, rfl, rfl⟩⟩
    · refine ⟨fun hne => absurd hop hne, fun _ => rfl, ⟨toU w v, fun j hj => ?_⟩, fun _ _ => rfl,
        Or.inl rfl, fun _ => ⟨0, fun _ _ => rfl⟩, ⟨rfl, rfl, rfl, rfl⟩,
        ⟨rfl, rfl, rfl, rfl, rfl, rfl, rfl, rfl, rfl, rfl⟩⟩
      exact GetRegister_SetRegister_other object _ j _ hj
    · refine ⟨fun _ => rfl, fun hne => absurd hop hne, ⟨0, fun _ _ => rfl⟩, fun k hk => ?_,
        Or.inr ⟨toU w v, toS w last_value, ?_⟩, fun hloc => ⟨toU w v, fun j hj => ?_⟩,
        ⟨?_, ?_, ?_, ?_⟩, ⟨rfl, rfl, rfl, rfl, rfl, rfl, rfl, rfl, rfl, rfl⟩⟩
      · simp [ResolverObject.StorePSA, hk]
      · simp [ResolverObject.StorePSA]
      · simp only [ResolverObject.StorePSA, if_true]
        exact hloc _ _ _ j hj
      · simp [ResolverObject.StorePSA]
      · simp [ResolverObject.StorePSA]
      · simp [ResolverObject.StorePSA]
      · simp [ResolverObject.StorePSA]

/-- Witness of `EvalAdjustT_frame`: a dword STO with accumulator 5 and fetched value 3 leaves
every register but register 3 as it was. -/
theorem EvalAdjustT_frame_witness :
    EvalAdjustT .DSG_SIZE_DWORD (exAdjust .DSGA_OP_STO 0x1A 0) exObject 0 5 3
        = some (5, exObject.SetRegister 3 5)
      ∧ (exObject.SetRegister 3 5).scopes = exObject.scopes
      ∧ (exObject.SetRegister 3 5).last_value = exObject.last_value
      ∧ ∃ i, ∀ j, j ≠ i → (exObject.SetRegister 3 5).GetRegister j = exObject.GetRegister j :=
  ⟨rfl,
    (EvalAdjustT_frame .DSG_SIZE_DWORD (exAdjust .DSGA_OP_STO 0x1A 0) exObject
      (exObject.SetRegister 3 5) 0 5 3 5 rfl).2.1 (by decide),
    (EvalAdjustT_frame .DSG_SIZE_DWORD (exAdjust .DSGA_OP_STO 0x1A 0) exObject
      (exObject.SetRegister 3 5) 0 5 3 5 rfl).2.2.2.2.2.2.2.2.2.2.1,
    (EvalAdjustT_frame .DSG_SIZE_DWORD (exAdjust .DSGA_OP_STO 0x1A 0) exObject
      (exObject.SetRegister 3 5) 0 5 3 5 rfl).2.2.1⟩

/-! ## C14: resolving twice -/

theorem SameFrame.refl (a : ResolverObject) : SameFrame a a :=
  ⟨rfl, rfl, rfl, rfl, rfl, rfl, rfl, fun _ => rfl, fun _ => rfl, fun _ => rfl, fun _ => rfl⟩

theorem SameFrame.trans {a b c : ResolverObject} (h1 : SameFrame a b) (h2 : SameFrame b c) :
    SameFrame a c :=
  ⟨h1.callback.trans h2.callback, h1.callback_param1.trans h2.callback_param1,
    h1.callback_param2.trans h2.callback_param2, h1.grffile.trans h2.grffile,
    h1.waiting.trans h2.waiting, h1.getScope.trans h2.getScope,
    h1.resolveReal.trans h2.resolveReal, fun k => (h1.randomBits k).trans (h2.randomBits k),
    fun k => (h1.randomTriggers k).trans (h2.randomTriggers k),
    fun k => (h1.getVariable k).trans (h2.getVariable k),
    fun k => (h1.storePSA k).trans (h2.storePSA k)⟩

theorem SameFrame.symm {a b : ResolverObject} (h : SameFrame a b) : SameFrame b a :=
  ⟨h.callback.symm, h.callback_param1.symm, h.callback_param2.symm, h.grffile.symm,
    h.waiting.symm, h.getScope.symm, h.resolveReal.symm, fun k => (h.randomBits k).symm,
    fun k => (h.randomTriggers k).symm, fun k => (h.getVariable k).symm,
    fun k => (h.storePSA k).symm⟩

theorem ScopeVariablesFixed.of_frame {a b : ResolverObject} (h : SameFrame a b)
    (hf : ScopeVariablesFixed a) : ScopeVariablesFixed b := by
  intro k var parameter available s1 s2
  rw [← h.getVariable k]
  exact hf k var parameter available s1 s2

theorem SameFrame.frame_setRegister (a : ResolverObject) (i : Nat) (v : Int) :
    SameFrame a (a.SetRegister i v) :=
  ⟨rfl, rfl, rfl, rfl, rfl, rfl, rfl, fun _ => rfl, fun _ => rfl, fun _ => rfl, fun _ => rfl⟩

theorem SameFrame.frame_storePSA_call (a : ResolverObject) (scope i : Nat) (v : Int) :
    SameFrame a (a.StorePSA scope i v) := by
  refine ⟨rfl, rfl, rfl, rfl, rfl, rfl, rfl, ?_, ?_, ?_, ?_⟩ <;>
    intro k <;> by_cases hk : k = scope <;> simp [ResolverObject.StorePSA, hk]

theorem SameFrame.frame_setLastValue (a : ResolverObject) (v : Nat) :
    SameFrame a { a with last_value := v } :=
  ⟨rfl, rfl, rfl, rfl, rfl, rfl, rfl, fun _ => rfl, fun _ => rfl, fun _ => rfl, fun _ => rfl⟩

theorem SameInputs.inputs_setRegister {a b : ResolverObject} (h : SameInputs a b) (i : Nat) (v : Int) :
    SameInputs (a.SetRegister i v) (b.SetRegister i v) :=
  ⟨((SameFrame.frame_setRegister a i v).symm.trans h.frame).trans (SameFrame.frame_setRegister b i v),
    h.last_value, by simp only [ResolverObject.SetRegister, h.temp_store],
    ScopeVariablesFixed.of_frame (SameFrame.frame_setRegister a i v) h.fixed⟩

theorem SameInputs.inputs_storePSA_call {a b : ResolverObject} (h : SameInputs a b) (scope i : Nat)
    (v : Int) : SameInputs (a.StorePSA scope i v) (b.StorePSA scope i v) :=
  ⟨((SameFrame.frame_storePSA_call a scope i v).symm.trans h.frame).trans
      (SameFrame.frame_storePSA_call b scope i v),
    h.last_value, h.temp_store,
    ScopeVariablesFixed.of_frame (SameFrame.frame_storePSA_call a scope i v) h.fixed⟩

theorem SameInputs.inputs_setLastValue {a b : ResolverObject} (h : SameInputs a b) (v : Nat) :
    SameInputs { a with last_value := v } { b with last_value := v } :=
  ⟨((SameFrame.frame_setLastValue a v).symm.trans h.frame).trans (SameFrame.frame_setLastValue b v),
    rfl, h.temp_store, ScopeVariablesFixed.of_frame (SameFrame.frame_setLastValue a v) h.fixed⟩

theorem GetVariable_sameInputs (ext : Externals) {a b : ResolverObject} (h : SameInputs a b)
    (scope var parameter : Nat) (available : Bool) :
    GetVariable ext a scope var parameter available
      = GetVariable ext b scope var parameter available := by
  unfold GetVariable ResolverObject.GetRegister
  rw [h.frame.callback, h.frame.callback_param1, h.frame.callback_param2, h.last_value,
    h.frame.grffile, h.temp_store, h.frame.randomBits scope, h.frame.randomTriggers scope,
    ← h.frame.getVariable scope,
    h.fixed scope var parameter available (a.scopes scope).psa (b.scopes scope).psa]
theorem EvalOperation_other_object (w : DeterministicSpriteGroupSize)
    (operation : DeterministicSpriteGroupAdjustOperation) (a b : ResolverObject)
    (scope last_value value : Nat) (h1 : operation ≠ .DSGA_OP_STO)
    (h2 : operation ≠ .DSGA_OP_STOP) :
    EvalOperation w operation b scope last_value value
      = (EvalOperation w operation a scope last_value value).map (fun r => (r.1, b)) := by
  cases operation <;> simp only [EvalOperation, Option.map_some'] <;>
    first
    | rfl
    | exact absurd rfl h1
    | exact absurd rfl h2
    | (split
       · rfl
       · first
         | (rw [Option.map_map]; rfl)
         | (split <;> rfl))

theorem EvalOperation_sameInputs (w : DeterministicSpriteGroupSize)
    (operation : DeterministicSpriteGroupAdjustOperation) {a b : ResolverObject}
    (h : SameInputs a b) (scope last_value value x : Nat) (a' : ResolverObject)
    (ha : EvalOperation w operation a scope last_value value = some (x, a')) :
    ∃ b', EvalOperation w operation b scope last_value value = some (x, b')
      ∧ SameInputs a' b' ∧ SameFrame a a' := by
  rcases EvalOperation_effect w operation a a' scope last_value value x ha with
    ⟨h1, h2, rfl⟩ | ⟨hop, rfl⟩ | ⟨hop, rfl⟩
  · refine ⟨b, ?_, h, SameFrame.refl _⟩
    rw [EvalOperation_other_object w operation a' b scope last_value value h1 h2, ha]
    rfl
  · subst hop
    simp only [EvalOperation, Option.some.injEq, Prod.mk.injEq] at ha
    refine ⟨_, ?_, h.inputs_setRegister _ _, SameFrame.frame_setRegister _ _ _⟩
    simp only [EvalOperation, ha.1]
  · subst hop
    simp only [EvalOperation, Option.some.injEq, Prod.mk.injEq] at ha
    refine ⟨_, ?_, h.inputs_storePSA_call _ _ _, SameFrame.frame_storePSA_call _ _ _ _⟩
    simp only [EvalOperation, ha.1]

theorem EvalAdjustT_sameInputs (w : DeterministicSpriteGroupSize)
    (adjust : DeterministicSpriteGroupAdjust) {a b : ResolverObject}
    (h : SameInputs a b) (scope last_value value x : Nat) (a' : ResolverObject)
    (ha : EvalAdjustT w adjust a scope last_value value = some (x, a')) :
    ∃ b', EvalAdjustT w adjust b scope last_value value = some (x, b')
      ∧ SameInputs a' b' ∧ SameFrame a a' := by
  unfold EvalAdjustT at ha ⊢
  cases hv : AdjustValue w adjust value with
  | none => simp [hv] at ha
  | some v =>
    rw [hv] at ha
    exact EvalOperation_sameInputs w _ h scope last_value v x a' ha
theorem FetchAdjust_sameInputs (ext : Externals) {resolve : ResolveFn}
    (hres : ForwardAgree resolve) (adjust : DeterministicSpriteGroupAdjust)
    (scope last_value : Nat) {a b : ResolverObject} (h : SameInputs a b)
    (pa pb : List NewGRFProfiler) (value : Nat) (available : Bool) (a' : ResolverObject)
    (pa' : List NewGRFProfiler)
    (ha : FetchAdjust ext resolve adjust scope last_value a pa
      = some (value, available, a', pa')) :
    ∃ b' pb', FetchAdjust ext resolve adjust scope last_value b pb
        = some (value, available, b', pb')
      ∧ SameInputs a' b' ∧ SameFrame a a' := by
  unfold FetchAdjust at ha ⊢
  by_cases h1 : adjust.var = 0x7E
  · rw [if_pos h1] at ha ⊢
    cases hr : resolve adjust.subroutine a pa false with
    | none => simp [hr] at ha
    | some r =>
      obtain ⟨subgroup, a1, pa1⟩ := r
      obtain ⟨b1, pb1, hb, hin, hfr⟩ := hres _ a b pa pb false subgroup a1 pa1 h hr
      rw [hr] at ha
      rw [hb]
      cases subgroup <;>
        (simp only [Option.some.injEq, Prod.mk.injEq] at ha
         obtain ⟨rfl, rfl, rfl, rfl⟩ := ha
         exact ⟨b1, pb1, rfl, hin, hfr⟩)
  · rw [if_neg h1] at ha ⊢
    by_cases h2 : adjust.var = 0x7B
    · rw [if_pos h2] at ha ⊢
      simp only [Option.some.injEq, Prod.mk.injEq] at ha
      obtain ⟨rfl, rfl, rfl, rfl⟩ := ha
      refine ⟨b, pb, ?_, h, SameFrame.refl _⟩
      rw [GetVariable_sameInputs ext h]
    · rw [if_neg h2] at ha ⊢
      simp only [Option.some.injEq, Prod.mk.injEq] at ha
      obtain ⟨rfl, rfl, rfl, rfl⟩ := ha
      refine ⟨b, pb, ?_, h, SameFrame.refl _⟩
      rw [GetVariable_sameInputs ext h]

theorem RunAdjusts_sameInputs (ext : Externals) {resolve : ResolveFn}
    (hres : ForwardAgree resolve) (size : DeterministicSpriteGroupSize) (scope : Nat)
    (adjusts : List DeterministicSpriteGroupAdjust) :
    ∀ (last_value value : Nat) (a b : ResolverObject) (pa pb : List NewGRFProfiler),
      SameInputs a b →
      (∀ last_value' value' a' pa',
          RunAdjusts ext resolve size scope adjusts last_value value a pa
            = some (.finished last_value' value' a' pa') →
          ∃ b' pb', RunAdjusts ext resolve size scope adjusts last_value value b pb
              = some (.finished last_value' value' b' pb')
            ∧ SameInputs a' b' ∧ SameFrame a a')
        ∧ (∀ a' pa',
          RunAdjusts ext resolve size scope adjusts last_value value a pa
            = some (.unavailable a' pa') →
          ∃ b' pb', RunAdjusts ext resolve size scope adjusts last_value value b pb
              = some (.unavailable b' pb')
            ∧ SameInputs a' b' ∧ SameFrame a a') := by
  induction adjusts with
  | nil =>
    intro last_value value a b pa pb h
    refine ⟨?_, ?_⟩
    · intro last_value' value' a' pa' ha
      simp only [RunAdjusts, Option.some.injEq, ChainResult.finished.injEq] at ha
      obtain ⟨rfl, rfl, rfl, rfl⟩ := ha
      exact ⟨b, pb, rfl, h, SameFrame.refl _⟩
    · intro a' pa' ha
      simp [RunAdjusts] at ha
  | cons adjust rest ih =>
    intro last_value value a b pa pb h
    simp only [RunAdjusts]
    cases hf : FetchAdjust ext resolve adjust scope last_value a pa with
    | none => exact ⟨fun _ _ _ _ ha => by simp at ha, fun _ _ ha => by simp at ha⟩
    | some r =>
      obtain ⟨v, available, a1, pa1⟩ := r
      obtain ⟨b1, pb1, hb, hin1, hfr1⟩ :=
        FetchAdjust_sameInputs ext hres adjust scope last_value h pa pb v available a1 pa1 hf
      rw [hb]
      cases available with
      | false =>
        simp only [if_true]
        refine ⟨fun _ _ _ _ ha => by simp at ha, ?_⟩
        intro a' pa' ha
        simp only [Option.some.injEq, ChainResult.unavailable.injEq] at ha
        obtain ⟨rfl, rfl⟩ := ha
        exact ⟨b1, pb1, rfl, hin1, hfr1⟩
      | true =>
        simp only [Bool.true_eq_false, if_false]
        cases he : EvalAdjustT size adjust a1 scope (toU size last_value) v with
        | none => exact ⟨fun _ _ _ _ ha => by simp at ha, fun _ _ ha => by simp at ha⟩
        | some e =>
          obtain ⟨x, a2⟩ := e
          obtain ⟨b2, hb2, hin2, hfr2⟩ :=
            EvalAdjustT_sameInputs size adjust hin1 scope _ v x a2 he
          rw [hb2]
          simp only
          obtain ⟨ihF, ihU⟩ := ih x x a2 b2 pa1 pb1 hin2
          refine ⟨?_, ?_⟩
          · intro last_value' value' a' pa' ha
            obtain ⟨b', pb', hrun, hin, hfr⟩ := ihF last_value' value' a' pa' ha
            exact ⟨b', pb', hrun, hin, (hfr1.trans hfr2).trans hfr⟩
          · intro a' pa' ha
            obtain ⟨b', pb', hrun, hin, hfr⟩ := ihU a' pa' ha
            exact ⟨b', pb', hrun, hin, (hfr1.trans hfr2).trans hfr⟩
theorem DeterministicSpriteGroup_Resolve_sameInputs (ext : Externals) {resolve : ResolveFn}
    (hres : ForwardAgree resolve) (g : DeterministicSpriteGroup) {a b : ResolverObject}
    (h : SameInputs a b) (pa pb : List NewGRFProfiler) (r : ResolverResult)
    (a' : ResolverObject) (pa' : List NewGRFProfiler)
    (ha : g.Resolve ext resolve a pa = some (r, a', pa')) :
    ∃ b' pb', g.Resolve ext resolve b pb = some (r, b', pb')
      ∧ SameInputs a' b' ∧ SameFrame a a' := by
  unfold DeterministicSpriteGroup.Resolve at ha ⊢
  rw [← h.frame.getScope]
  obtain ⟨hF, hU⟩ := RunAdjusts_sameInputs ext hres g.size (a.GetScope g.var_scope 0) g.adjusts
    0 0 a b pa pb h
  cases hrun : RunAdjusts ext resolve g.size (a.GetScope g.var_scope 0) g.adjusts 0 0 a pa with
  | none => simp [hrun] at ha
  | some out =>
    rw [hrun] at ha
    cases out with
    | unavailable a1 pa1 =>
      obtain ⟨b1, pb1, hb, hin1, hfr1⟩ := hU a1 pa1 hrun
      rw [hb]
      simp only at ha ⊢
      obtain ⟨b', pb', hb', hin, hfr⟩ := hres _ a1 b1 pa1 pb1 false r a' pa' hin1 ha
      exact ⟨b', pb', hb', hin, hfr1.trans hfr⟩
    | finished last_value value a1 pa1 =>
      obtain ⟨b1, pb1, hb, hin1, hfr1⟩ := hF last_value value a1 pa1 hrun
      rw [hb]
      simp only at ha ⊢
      cases hsel : SelectResult g.ranges g.default_result value with
      | none => simp [hsel] at ha
      | some result =>
        rw [hsel] at ha
        simp only at ha ⊢
        by_cases hcalc : result.calculated_result = true
        · rw [if_pos hcalc] at ha ⊢
          simp only [Option.some.injEq, Prod.mk.injEq] at ha
          obtain ⟨rfl, rfl, rfl⟩ := ha
          exact ⟨_, _, rfl, hin1.inputs_setLastValue _, hfr1.trans (SameFrame.frame_setLastValue _ _)⟩
        · rw [if_neg hcalc] at ha ⊢
          obtain ⟨b', pb', hb', hin, hfr⟩ :=
            hres _ _ _ pa1 pb1 false r a' pa' (hin1.inputs_setLastValue last_value) ha
          exact ⟨b', pb', hb', hin, (hfr1.trans (SameFrame.frame_setLastValue _ _)).trans hfr⟩

theorem HandleTriggers_sameInputs (ext : Externals) (g : RandomizedSpriteGroup)
    {a b : ResolverObject} (h : SameInputs a b) (a' : ResolverObject)
    (ha : g.HandleTriggers ext a = some a') :
    ∃ b', g.HandleTriggers ext b = some b' ∧ SameInputs a' b' ∧ SameFrame a a' := by
  have hw : b.GetWaitingRandomTriggers = a.GetWaitingRandomTriggers := by
    unfold ResolverObject.GetWaitingRandomTriggers
    exact h.frame.waiting.symm
  rcases HandleTriggers_cases ext g a with ⟨hcb, hcond, heq⟩ | ⟨hnot, heq⟩
  · rcases HandleTriggers_cases ext g b with ⟨_, _, heqb⟩ | ⟨hnotb, _⟩
    · rw [heq] at ha
      rw [heqb]
      by_cases h64 : 64 ≤ g.lowest_randbit
      · rw [if_pos h64] at ha
        cases ha
      · rw [if_neg h64] at ha ⊢
        simp only [Option.some.injEq] at ha
        subst ha
        refine ⟨_, rfl, ⟨?_, h.last_value, h.temp_store, ?_⟩, ?_⟩
        · exact ⟨h.frame.callback, h.frame.callback_param1, h.frame.callback_param2,
            h.frame.grffile, h.frame.waiting, h.frame.getScope, h.frame.resolveReal,
            h.frame.randomBits, h.frame.randomTriggers, h.frame.getVariable, h.frame.storePSA⟩
        · exact h.fixed
        · exact ⟨rfl, rfl, rfl, rfl, rfl, rfl, rfl, fun _ => rfl, fun _ => rfl, fun _ => rfl,
            fun _ => rfl⟩
    · exfalso
      apply hnotb
      rw [← h.frame.callback, hw]
      exact ⟨hcb, hcond⟩
  · rw [heq] at ha
    simp only [Option.some.injEq] at ha
    subst ha
    rcases HandleTriggers_cases ext g b with ⟨hcbb, hcondb, _⟩ | ⟨_, heqb⟩
    · exfalso
      apply hnot
      rw [h.frame.callback, ← hw]
      exact ⟨hcbb, hcondb⟩
    · exact ⟨b, heqb, h, SameFrame.refl _⟩

theorem RandomizedSpriteGroup_Resolve_sameInputs (ext : Externals) {resolve : ResolveFn}
    (hres : ForwardAgree resolve) (g : RandomizedSpriteGroup) {a b : ResolverObject}
    (h : SameInputs a b) (pa pb : List NewGRFProfiler) (r : ResolverResult)
    (a' : ResolverObject) (pa' : List NewGRFProfiler)
    (ha : g.Resolve ext resolve a pa = some (r, a', pa')) :
    ∃ b' pb', g.Resolve ext resolve b pb = some (r, b', pb')
      ∧ SameInputs a' b' ∧ SameFrame a a' := by
  unfold RandomizedSpriteGroup.Resolve at ha ⊢
  cases ht : g.HandleTriggers ext a with
  | none => simp [ht] at ha
  | some a1 =>
    obtain ⟨b1, hb1, hin1, hfr1⟩ := HandleTriggers_sameInputs ext g h a1 ht
    rw [ht] at ha
    rw [hb1, ← h.frame.getScope]
    simp only at ha ⊢
    rw [← hin1.frame.randomBits]
    cases hi : g.Index (a1.scopes (a.GetScope g.var_scope g.count)).GetRandomBits with
    | none => simp [hi] at ha
    | some index =>
      rw [hi] at ha
      simp only at ha ⊢
      cases hc : g.groups[index]? with
      | none => simp [hc] at ha
      | some child =>
        rw [hc] at ha
        simp only at ha ⊢
        obtain ⟨b', pb', hb', hin, hfr⟩ := hres child a1 b1 pa pb false r a' pa' hin1 ha
        exact ⟨b', pb', hb', hin, hfr1.trans hfr⟩

theorem ResolveNode_sameInputs (ext : Externals) {resolve : ResolveFn}
    (hres : ForwardAgree resolve) (p : Nat) (group : SpriteGroup) {a b : ResolverObject}
    (h : SameInputs a b) (pa pb : List NewGRFProfiler) (r : ResolverResult)
    (a' : ResolverObject) (pa' : List NewGRFProfiler)
    (ha : group.ResolveNode ext resolve p a pa = some (r, a', pa')) :
    ∃ b' pb', group.ResolveNode ext resolve p b pb = some (r, b', pb')
      ∧ SameInputs a' b' ∧ SameFrame a a' := by
  cases group with
  | Deterministic g =>
    exact DeterministicSpriteGroup_Resolve_sameInputs ext hres g h pa pb r a' pa' ha
  | Randomized g =>
    exact RandomizedSpriteGroup_Resolve_sameInputs ext hres g h pa pb r a' pa' ha
  | CallbackResult result =>
    simp only [SpriteGroup.ResolveNode, Option.some.injEq, Prod.mk.injEq] at ha
    obtain ⟨rfl, rfl, rfl⟩ := ha
    exact ⟨b, pb, rfl, h, SameFrame.refl _⟩
  | Real g =>
    simp only [SpriteGroup.ResolveNode] at ha ⊢
    rw [← h.frame.resolveReal]
    exact hres _ a b pa pb false r a' pa' h ha
  | Terminal =>
    simp only [SpriteGroup.ResolveNode, Option.some.injEq, Prod.mk.injEq] at ha
    obtain ⟨rfl, rfl, rfl⟩ := ha
    exact ⟨b, pb, rfl, h, SameFrame.refl _⟩
theorem SpriteGroup_Resolve_node (ext : Externals) (pool : Nat → SpriteGroup) (budget p : Nat)
    (a : ResolverObject) (pa : List NewGRFProfiler) (top_level : Bool) (r : ResolverResult)
    (a' : ResolverObject) (pa' : List NewGRFProfiler)
    (h : SpriteGroup.Resolve ext pool (budget + 1) (some p) a pa top_level = some (r, a', pa')) :
    ∃ px py, (pool p).ResolveNode ext (SpriteGroup.Resolve ext pool budget) p a px
      = some (r, a', py) := by
  simp only [SpriteGroup.Resolve] at h
  split at h
  · exact ⟨_, _, h⟩
  · split at h
    · exact ⟨_, _, h⟩
    · split at h
      · split at h
        · cases h
        · rename_i heq
          simp only [Option.some.injEq, Prod.mk.injEq] at h
          obtain ⟨rfl, rfl, _⟩ := h
          exact ⟨_, _, heq⟩
      · exact ⟨_, _, h⟩

theorem SpriteGroup_Resolve_of_node (ext : Externals) (pool : Nat → SpriteGroup)
    (budget p : Nat) (b : ResolverObject) (pb : List NewGRFProfiler) (top_level : Bool)
    (r : ResolverResult) (P : ResolverObject → Prop)
    (h : ∀ px, ∃ b' py, (pool p).ResolveNode ext (SpriteGroup.Resolve ext pool budget) p b px
      = some (r, b', py) ∧ P b') :
    ∃ b' pb', SpriteGroup.Resolve ext pool (budget + 1) (some p) b pb top_level
      = some (r, b', pb') ∧ P b' := by
  simp only [SpriteGroup.Resolve]
  split
  · obtain ⟨b', py, hb, hP⟩ := h pb
    exact ⟨b', py, hb, hP⟩
  · split
    · obtain ⟨b', py, hb, hP⟩ := h pb
      exact ⟨b', py, hb, hP⟩
    · split
      · rename_i i _ _ _
        obtain ⟨b', py, hb, hP⟩ := h (notifyProfiler pb i .BeginResolve)
        rw [hb]
        exact ⟨b', _, rfl, hP⟩
      · rename_i i _ _ _
        obtain ⟨b', py, hb, hP⟩ := h (notifyProfiler pb i .RecursiveResolve)
        exact ⟨b', py, hb, hP⟩

theorem SpriteGroup_Resolve_forwardAgree (ext : Externals) (pool : Nat → SpriteGroup) :
    ∀ budget, ForwardAgree (SpriteGroup.Resolve ext pool budget) := by
  intro budget
  induction budget with
  | zero =>
    intro group a b pa pb top_level r a' pa' h ha
    cases group with
    | none =>
      simp only [SpriteGroup.Resolve, Option.some.injEq, Prod.mk.injEq] at ha
      obtain ⟨rfl, rfl, rfl⟩ := ha
      exact ⟨b, pb, by simp only [SpriteGroup.Resolve], h, SameFrame.refl _⟩
    | some p => simp [SpriteGroup.Resolve] at ha
  | succ budget ih =>
    intro group a b pa pb top_level r a' pa' h ha
    cases group with
    | none =>
      simp only [SpriteGroup.Resolve, Option.some.injEq, Prod.mk.injEq] at ha
      obtain ⟨rfl, rfl, rfl⟩ := ha
      exact ⟨b, pb, by simp only [SpriteGroup.Resolve], h, SameFrame.refl _⟩
    | some p =>
      obtain ⟨px, py, hnode⟩ := SpriteGroup_Resolve_node ext pool budget p a pa top_level r a' pa' ha
      exact SpriteGroup_Resolve_of_node ext pool budget p b pb top_level r
        (fun b' => SameInputs a' b' ∧ SameFrame a a')
        (fun qx => ResolveNode_sameInputs ext ih p (pool p) h px qx r a' py hnode)

/-- C14, with the shared scalar restored: for every node and every resolver object whose
register file is clear and whose scopes supply variables that do not depend on their persistent
storage, when resolving the node gives a result, then after clearing the register file and
setting `last_value` of the object back to what it was before the first run, resolving the
same node again with the same resolver object (whatever the first run left in reseed masks,
used triggers, persistent storage and profilers) gives the same result; so the round trip of
the spec gives two identical results whenever the first run left `last_value` as it was. -/
theorem ResolveTwice_same (ext : Externals) (pool : Nat → SpriteGroup) (budget : Nat)
    (group : Option Nat) (object : ResolverObject) (profilers : List NewGRFProfiler)
    (top_level : Bool) (result1 : ResolverResult) (object1 : ResolverObject)
    (profilers1 : List NewGRFProfiler)
    (hfirst : SpriteGroup.Resolve ext pool budget group object profilers top_level
      = some (result1, object1, profilers1))
    (hclear : object.temp_store = TemporaryStorageArray.cleared)
    (hfixed : ScopeVariablesFixed object) :
    (∃ object2 profilers2,
        SpriteGroup.Resolve ext pool budget group
            { object1.ClearRegisters with last_value := object.last_value } profilers1 top_level
          = some (result1, object2, profilers2))
      ∧ (object1.last_value = object.last_value →
        ResolveTwice ext pool budget group object profilers top_level
          = some (result1, result1)) := by
  have hself : SameInputs object object := ⟨SameFrame.refl _, rfl, rfl, hfixed⟩
  obtain ⟨_, _, _, _, hframe⟩ := SpriteGroup_Resolve_forwardAgree ext pool budget group
    object object profilers profilers top_level result1 object1 profilers1 hself hfirst
  have hrestored : SameInputs object
      { object1.ClearRegisters with last_value := object.last_value } :=
    ⟨⟨hframe.callback, hframe.callback_param1, hframe.callback_param2, hframe.grffile,
        hframe.waiting, hframe.getScope, hframe.resolveReal, hframe.randomBits,
        hframe.randomTriggers, hframe.getVariable, hframe.storePSA⟩,
      rfl, hclear, hfixed⟩
  obtain ⟨object2, profilers2, hsecond, _, _⟩ := SpriteGroup_Resolve_forwardAgree ext pool
    budget group object _ profilers profilers1 top_level result1 object1 profilers1 hrestored
    hfirst
  refine ⟨⟨object2, profilers2, hsecond⟩, fun hlv => ?_⟩
  have hobj : ({ object1.ClearRegisters with last_value := object.last_value } : ResolverObject)
      = object1.ClearRegisters := by
    rw [← hlv]
    rfl
  rw [hobj] at hsecond
  simp only [ResolveTwice, hfirst, hsecond]

/-- Witness of `ResolveTwice_same`: `exGroupLastValue` resolves to the callback result 7 from
`exObject` and leaves `last_value = 7`; with the registers cleared and `last_value` set back to
0 it resolves to 7 again. -/
theorem ResolveTwice_same_witness :
    SpriteGroup.Resolve exExt exPoolTwice 1 (some 2) exObject [] true
        = some (.callback 7, { exObject with last_value := 7 }, [])
      ∧ exObject.temp_store = TemporaryStorageArray.cleared
      ∧ ScopeVariablesFixed exObject
      ∧ ∃ object2 profilers2,
        SpriteGroup.Resolve exExt exPoolTwice 1 (some 2)
            { ({ exObject with last_value := 7 } : ResolverObject).ClearRegisters with
              last_value := exObject.last_value } [] true
          = some (.callback 7, object2, profilers2) :=
  ⟨rfl, rfl, fun _ _ _ _ _ _ => rfl,
    (ResolveTwice_same exExt exPoolTwice 1 (some 2) exObject [] true (.callback 7)
      { exObject with last_value := 7 } [] rfl rfl (fun _ _ _ _ _ _ => rfl)).1⟩

/-- C14 as stated fails: from `exObject` (registers clear, `last_value` 0, base scopes) the
group `exGroupLastValue`, which reads variable 0x1C, resolves to the callback result 7 the first
time and, after the registers are cleared, to 14 the second time, because the first run left
`last_value = 7` in the object. A register file that is not clear before the first run also
separates the two results: with register 0 holding 5, `exGroupRegister` gives 5 and then 0. -/
theorem ResolveTwice_counterexample :
    exObject.temp_store = TemporaryStorageArray.cleared
      ∧ ResolveTwice exExt exPoolTwice 1 (some 2) exObject [] true
          = some (.callback 7, .callback 14)
      ∧ ResolveTwice exExt exPoolTwice 1 (some 3) (exObject.SetRegister 0 5) [] true
          = some (.callback 5, .callback 0) :=
  ⟨rfl, by decide, by decide⟩

/-! ## C17: divisions the guard does not cover -/

/-- C17 fails on the code. At byte width with no shift, full mask and no sub-mode, the fetched
value 0x100 passes the guard `value == 0` (it is not 0) but converts to 0 in both `uint8_t` and
`int8_t`, so UDIV, UMOD, SDIV and SMOD divide by zero; at dword width the accumulator 0x80000000
and the fetched value 0xFFFFFFFF make SDIV and SMOD compute `INT_MIN / -1`, whose quotient
`2^31` is not an `int`. None of these evaluations has a result. -/
theorem EvalAdjustT_division_faults :
    (AdjustValue .DSG_SIZE_BYTE (exAdjust .DSGA_OP_UDIV 0x1A 0) 0x100 = some 0x100
      ∧ toU .DSG_SIZE_BYTE 0x100 = 0 ∧ toS .DSG_SIZE_BYTE 0x100 = 0
      ∧ EvalAdjustT .DSG_SIZE_BYTE (exAdjust .DSGA_OP_UDIV 0x1A 0) exObject 0 5 0x100 = none
      ∧ EvalAdjustT .DSG_SIZE_BYTE (exAdjust .DSGA_OP_UMOD 0x1A 0) exObject 0 5 0x100 = none
      ∧ EvalAdjustT .DSG_SIZE_BYTE (exAdjust .DSGA_OP_SDIV 0x1A 0) exObject 0 5 0x100 = none
      ∧ EvalAdjustT .DSG_SIZE_BYTE (exAdjust .DSGA_OP_SMOD 0x1A 0) exObject 0 5 0x100 = none)
    ∧ (AdjustValue .DSG_SIZE_DWORD (exAdjust .DSGA_OP_SDIV 0x1A 0) 0xFFFFFFFF = some 0xFFFFFFFF
      ∧ toS .DSG_SIZE_DWORD 0x80000000 = -2 ^ 31 ∧ toS .DSG_SIZE_DWORD 0xFFFFFFFF = -1
      ∧ Int.tdiv (-2 ^ 31) (-1) = 2 ^ 31
      ∧ EvalAdjustT .DSG_SIZE_DWORD (exAdjust .DSGA_OP_SDIV 0x1A 0) exObject 0 0x80000000
          0xFFFFFFFF = none
      ∧ EvalAdjustT .DSG_SIZE_DWORD (exAdjust .DSGA_OP_SMOD 0x1A 0) exObject 0 0x80000000
          0xFFFFFFFF = none) :=
  ⟨⟨by decide, by decide, by decide, rfl, rfl, rfl, rfl⟩,
    ⟨by decide, by decide, by decide, by decide, rfl, rfl⟩⟩

/-! ## C18: the assertion of the binary search -/

/-- C18: in the binary-search branch, for every range list sorted ascending by upper bound and
every scalar, whenever the range found by `lower_bound` passes the test `low ≤ value`, the
asserted condition `lower->low <= value && value <= lower->high` holds; so the assertion never
fails and the branch always selects a result. -/
theorem BinarySelect_assert_holds (ranges : List DeterministicSpriteGroupRange)
    (default_result : DeterministicSpriteGroupResult) (value : Nat)
    (hs : SortedByHigh ranges) :
    (∀ lower, ranges[lower_bound ranges value]? = some lower → lower.low ≤ value →
        lower.low ≤ value ∧ value ≤ lower.high)
      ∧ (BinarySelect ranges default_result value).isSome = true := by
  obtain ⟨_, _, hhi⟩ := lower_bound_spec hs value
  have key : ∀ lower, ranges[lower_bound ranges value]? = some lower → lower.low ≤ value →
      lower.low ≤ value ∧ value ≤ lower.high :=
    fun lower hget hlow => ⟨hlow, hhi _ _ (le_refl _) hget⟩
  refine ⟨key, ?_⟩
  unfold BinarySelect
  cases hget : ranges[lower_bound ranges value]? with
  | none => rfl
  | some lower =>
    by_cases hlow : lower.low ≤ value
    · simp [hlow, (key lower hget hlow).2]
    · simp [hlow]

/-- Witness of `BinarySelect_assert_holds`: in `exRanges5` at 25 the binary search finds
`[20,29]`, which passes the test and the assertion. -/
theorem BinarySelect_assert_holds_witness :
    SortedByHigh exRanges5
      ∧ exRanges5[lower_bound exRanges5 25]? = some ⟨exResult 4, 20, 29⟩
      ∧ (20 ≤ 25 ∧ 25 ≤ 29)
      ∧ (BinarySelect exRanges5 (exResult 3) 25).isSome = true :=
  ⟨by unfold SortedByHigh; decide, by decide,
    (BinarySelect_assert_holds exRanges5 (exResult 3) 25 (by unfold SortedByHigh; decide)).1
      ⟨exResult 4, 20, 29⟩ (by decide) (by decide),
    (BinarySelect_assert_holds exRanges5 (exResult 3) 25 (by unfold SortedByHigh; decide)).2⟩

/-! ## C19: the child index of a randomized group is in range -/

/-- C19: for every randomized group with a non-empty child list of any length `n`, every lowest
bit below 32 and every value of the random bits, the index computed by lines 263-264 (mask
`(n-1) << lowest_randbit`, shift down, truncation to 8 bits) exists and is strictly less than
`n`, so the lookup `groups[index]` finds a child. -/
theorem RandomizedSpriteGroup_Index_lt (g : RandomizedSpriteGroup) (random_bits : Nat)
    (hn : g.groups ≠ []) (hb : g.lowest_randbit < 32) :
    ∃ index, g.Index random_bits = some index ∧ index < g.groups.length
      ∧ (g.groups[index]?).isSome = true := by
  have hnb : ¬ 32 ≤ g.lowest_randbit := by omega
  have hlt := RandomizedSpriteGroup_Index_bound g random_bits hn
  refine ⟨_, by unfold RandomizedSpriteGroup.Index; rw [if_neg hnb], hlt, ?_⟩
  rw [List.getElem?_eq_getElem hlt]
  rfl

/-- Witness of `RandomizedSpriteGroup_Index_lt`: three children, lowest bit 1, random bits
0b1111: the mask is 0b100, the index 2. -/
theorem RandomizedSpriteGroup_Index_lt_witness :
    exRandomized3.groups ≠ [] ∧ exRandomized3.lowest_randbit < 32
      ∧ exRandomized3.Index 0b1111 = some 2
      ∧ ∃ index, exRandomized3.Index 0b1111 = some index ∧ index < exRandomized3.groups.length
          ∧ (exRandomized3.groups[index]?).isSome = true :=
  ⟨by decide, by decide, by decide,
    RandomizedSpriteGroup_Index_lt exRandomized3 0b1111 (by decide) (by decide)⟩

/-! ## C20: the accumulator stays within the width -/

theorem toU_lt (w : DeterministicSpriteGroupSize) (x : Int) : toU w x < 2 ^ w.bits :=
  toUnsigned_lt _ _

theorem EvalOperation_lt (w : DeterministicSpriteGroupSize)
    (operation : DeterministicSpriteGroupAdjustOperation) (object object' : ResolverObject)
    (scope last_value value x : Nat) (hlv : last_value < 2 ^ w.bits)
    (h : EvalOperation w operation object scope last_value value = some (x, object')) :
    x < 2 ^ w.bits := by
  cases operation <;> simp only [EvalOperation] at h
  all_goals
    first
    | (simp only [Option.some.injEq, Prod.mk.injEq] at h
       obtain ⟨rfl, _⟩ := h
       first | exact toU_lt _ _ | exact hlv)
    | (split at h
       · simp only [Option.some.injEq, Prod.mk.injEq] at h
         obtain ⟨rfl, _⟩ := h
         exact toU_lt _ _
       · first
         | (simp only [Option.map_eq_some', Prod.mk.injEq] at h
            obtain ⟨r, _, rfl, _⟩ := h
            exact toU_lt _ _)
         | (split at h
            · cases h
            · simp only [Option.some.injEq, Prod.mk.injEq] at h
              obtain ⟨rfl, _⟩ := h
              exact toU_lt _ _))

theorem EvalAdjustT_lt (w : DeterministicSpriteGroupSize)
    (adjust : DeterministicSpriteGroupAdjust) (object object' : ResolverObject)
    (scope last_value value x : Nat) (hlv : last_value < 2 ^ w.bits)
    (h : EvalAdjustT w adjust object scope last_value value = some (x, object')) :
    x < 2 ^ w.bits := by
  unfold EvalAdjustT at h
  cases hv : AdjustValue w adjust value with
  | none => simp [hv] at h
  | some v =>
    rw [hv] at h
    exact EvalOperation_lt w _ object object' scope last_value v x hlv h

theorem RunAdjusts_accumulator (ext : Externals) (resolve : ResolveFn)
    (size : DeterministicSpriteGroupSize) (scope : Nat)
    (adjusts : List DeterministicSpriteGroupAdjust) :
    ∀ (last_value value : Nat) (object : ResolverObject) (profilers : List NewGRFProfiler)
      (last_value' value' : Nat) (object' : ResolverObject) (profilers' : List NewGRFProfiler),
      last_value = value → value < 2 ^ size.bits →
      RunAdjusts ext resolve size scope adjusts last_value value object profilers
          = some (.finished last_value' value' object' profilers') →
      last_value' = value' ∧ value' < 2 ^ size.bits := by
  induction adjusts with
  | nil =>
    intro last_value value object profilers last_value' value' object' profilers' heq hlt h
    simp only [RunAdjusts, Option.some.injEq, ChainResult.finished.injEq] at h
    obtain ⟨rfl, rfl, _, _⟩ := h
    exact ⟨heq, hlt⟩
  | cons a rest ih =>
    intro last_value value object profilers last_value' value' object' profilers' _ _ h
    simp only [RunAdjusts] at h
    cases hf : FetchAdjust ext resolve a scope last_value object profilers with
    | none => simp [hf] at h
    | some r =>
      obtain ⟨v, available, o, p⟩ := r
      simp only [hf] at h
      cases available with
      | false => simp at h
      | true =>
        simp only [Bool.true_eq_false, if_false] at h
        cases he : EvalAdjustT size a o scope (toU size last_value) v with
        | none => simp [he] at h
        | some e =>
          obtain ⟨x, o2⟩ := e
          simp only [he] at h
          exact ih x x o2 p _ _ _ _ rfl
            (EvalAdjustT_lt size a o o2 scope _ v x (toU_lt _ _) he) h

/-- C20: for a deterministic group of width `W` (the bits of its size) whose adjustment loop
ends with the locals `last_value` and `value`: every evaluation of an adjustment on the
accumulator, whatever the operation, sub-mode, shift, mask and fetched value, gives a value
below `2^W`; after any initial part of the chain the accumulator is below `2^W`; at the end
`last_value = value < 2^W` (and 0 for an empty chain), and this one number is the scalar of the
range matching, the value written to `last_value` of the object and the scalar of a calculated
result. -/
theorem DeterministicSpriteGroup_accumulator (ext : Externals) (resolve : ResolveFn)
    (g : DeterministicSpriteGroup) (object : ResolverObject) (profilers : List NewGRFProfiler)
    (last_value value : Nat) (object' : ResolverObject) (profilers' : List NewGRFProfiler)
    (hrun : RunAdjusts ext resolve g.size (object.GetScope g.var_scope 0) g.adjusts 0 0 object
      profilers = some (.finished last_value value object' profilers')) :
    (∀ adjust o o' scope acc fetched x,
        EvalAdjustT g.size adjust o scope (toU g.size acc) fetched = some (x, o') →
        x < 2 ^ g.size.bits)
      ∧ (∀ pre post acc v o p, g.adjusts = pre ++ post →
        RunAdjusts ext resolve g.size (object.GetScope g.var_scope 0) pre 0 0 object profilers
          = some (.finished acc v o p) →
        acc = v ∧ v < 2 ^ g.size.bits)
      ∧ last_value = value ∧ value < 2 ^ g.size.bits
      ∧ (g.adjusts = [] → value = 0)
      ∧ g.Resolve ext resolve object profilers
        = (SelectResult g.ranges g.default_result value).bind fun result =>
            if result.calculated_result then
              some (.callback (GB value 0 15), { object' with last_value := value }, profilers')
            else resolve result.group { object' with last_value := value } profilers' false := by
  have hpos : 0 < 2 ^ g.size.bits := by positivity
  have hend := RunAdjusts_accumulator ext resolve g.size _ g.adjusts 0 0 object profilers
    last_value value object' profilers' rfl hpos hrun
  refine ⟨?_, ?_, hend.1, hend.2, ?_, ?_⟩
  · intro adjust o o' scope acc fetched x h
    exact EvalAdjustT_lt g.size adjust o o' scope _ fetched x (toU_lt _ _) h
  · intro pre post acc v o p _ hpre
    exact RunAdjusts_accumulator ext resolve g.size _ pre 0 0 object profilers acc v o p rfl
      hpos hpre
  · intro hnil
    rw [hnil] at hrun
    simp only [RunAdjusts, Option.some.injEq, ChainResult.finished.injEq] at hrun
    exact hrun.2.1.symm
  · unfold DeterministicSpriteGroup.Resolve
    rw [hrun]
    simp only [hend.1]
    cases SelectResult g.ranges g.default_result value <;> rfl

/-- Witness of `DeterministicSpriteGroup_accumulator`: `exGroupCalculated` ends with
`last_value = value = 0x12345`, below `2^32`. -/
theorem DeterministicSpriteGroup_accumulator_witness :
    RunAdjusts exExt (SpriteGroup.Resolve exExt exPool 1) exGroupCalculated.size
        (exObjectParam.GetScope exGroupCalculated.var_scope 0) exGroupCalculated.adjusts 0 0
        exObjectParam [] = some (.finished 0x12345 0x12345 exObjectParam [])
      ∧ (0x12345 : Nat) < 2 ^ exGroupCalculated.size.bits :=
  ⟨rfl,
    (DeterministicSpriteGroup_accumulator exExt (SpriteGroup.Resolve exExt exPool 1)
      exGroupCalculated exObjectParam [] 0x12345 0x12345 exObjectParam [] rfl).2.2.2.1⟩

/-! ## C16: the nearest-neighbour scaler -/

theorem tabulateOption_spec {α : Type} (f : Nat → Option α) :
    ∀ (n : Nat) (l : List α), tabulateOption f n = some l →
      l.length = n ∧ ∀ i, i < n → ∃ a, f i = some a ∧ l[i]? = some a := by
  intro n
  induction n with
  | zero =>
    intro l h
    simp only [tabulateOption, Option.some.injEq] at h
    subst h
    exact ⟨rfl, fun i hi => absurd hi (Nat.not_lt_zero i)⟩
  | succ n ih =>
    intro l h
    simp only [tabulateOption] at h
    cases h0 : tabulateOption f n with
    | none => simp [h0] at h
    | some l0 =>
      cases ha : f n with
      | none => simp [h0, ha] at h
      | some a =>
        simp only [h0, ha, Option.some.injEq] at h
        subst h
        obtain ⟨hlen, hget⟩ := ih l0 h0
        refine ⟨by simp [hlen], fun i hi => ?_⟩
        rcases Nat.lt_succ_iff_lt_or_eq.1 hi with hlt | heq
        · obtain ⟨b, hb, hlb⟩ := hget i hlt
          exact ⟨b, hb, by rw [List.getElem?_append_left (by omega), hlb]⟩
        · subst heq
          refine ⟨a, ha, ?_⟩
          rw [List.getElem?_append_right (by omega), hlen]
          simp

theorem flatten_uniform {α : Type} (w : Nat) :
    ∀ (rows : List (List α)), (∀ r ∈ rows, r.length = w) →
      rows.flatten.length = rows.length * w
        ∧ ∀ y x, x < w → rows.flatten[y * w + x]? = (rows[y]?).bind (fun r => r[x]?) := by
  intro rows
  induction rows with
  | nil =>
    intro _
    exact ⟨by simp, fun y x _ => by simp⟩
  | cons r rest ih =>
    intro h
    have hr : r.length = w := h r (List.mem_cons_self _ _)
    obtain ⟨hlen, hget⟩ := ih (fun r' hr' => h r' (List.mem_cons_of_mem _ hr'))
    refine ⟨?_, ?_⟩
    · rw [List.flatten_cons, List.length_append, hlen, hr, List.length_cons]
      ring
    · intro y x hx
      rw [List.flatten_cons]
      cases y with
      | zero =>
        rw [Nat.zero_mul, Nat.zero_add, List.getElem?_append_left (by omega)]
        simp
      | succ y =>
        rw [List.getElem?_append_right (by rw [hr]; nlinarith), hr]
        have hidx : (y + 1) * w + x - w = y * w + x := by
          have : (y + 1) * w = y * w + w := by ring
          omega
        rw [hidx, hget y x hx]
        simp
theorem roundToBinary32_neg (neg : Bool) (num den : Nat) (f : Binary32)
    (h : roundToBinary32 neg num den = some f) : f.neg = neg := by
  unfold roundToBinary32 at h
  split at h
  · split at h
    · cases h
    · simp only [Option.some.injEq] at h
      subst h
      rfl
  · split at h
    · cases h
    · simp only [Option.some.injEq] at h
      subst h
      rfl

theorem checkInt_eq_some (x y : Int) (h : checkInt x = some y) : y = x := by
  unfold checkInt at h
  split at h
  · simp only [Option.some.injEq] at h
    exact h.symm
  · cases h

/-- The source coordinate of lines 23 and 25 lies inside the source for a positive scale
factor: it is between 0 and `size - 1`. -/
theorem sourceCoordinate_bounds (i : Nat) (scale_factor : Binary32) (size s : Int)
    (hpos : scale_factor.neg = false) (hsize : 1 ≤ size)
    (h : sourceCoordinate i scale_factor size = some s) : 0 ≤ s ∧ s ≤ size - 1 := by
  unfold sourceCoordinate at h
  cases hf : Binary32.ofInt (i : Int) with
  | none => simp [hf] at h
  | some f =>
    have hfneg : f.neg = false := by
      have := roundToBinary32_neg _ _ _ f hf
      simpa using this
    simp only [hf, Option.some_bind] at h
    cases hq : f.div scale_factor with
    | none => simp [hq] at h
    | some q =>
      have hqneg : q.neg = false := by
        unfold Binary32.div at hq
        split at hq
        · cases hq
        · have := roundToBinary32_neg _ _ _ q hq
          simpa [hfneg, hpos] using this
      simp only [hq, Option.some_bind] at h
      cases ht : q.toInt with
      | none => simp [ht] at h
      | some t =>
        have htnn : 0 ≤ t := by
          unfold Binary32.toInt at ht
          rw [hqneg] at ht
          have := checkInt_eq_some _ _ ht
          simp only [Bool.false_eq_true, if_false] at this
          rw [this]
          exact Int.natCast_nonneg _
        simp only [ht, Option.some_bind] at h
        cases hl : checkInt (size - 1) with
        | none => simp [hl] at h
        | some last =>
          have hlast := checkInt_eq_some _ _ hl
          simp only [hl, Option.map_some', Option.some.injEq] at h
          subst h
          subst hlast
          exact ⟨le_min htnn (by omega), min_le_right _ _⟩
theorem sourcePixel_eq_some {α : Type} (src : List α) (width src_y src_x : Int) (p : α)
    (h : sourcePixel src width src_y src_x = some p) :
    0 ≤ src_y * width + src_x ∧ src[(src_y * width + src_x).toNat]? = some p := by
  unfold sourcePixel at h
  cases hr : checkInt (src_y * width) with
  | none => simp [hr] at h
  | some row =>
    have hrow := checkInt_eq_some _ _ hr
    simp only [hr, Option.some_bind] at h
    cases hi : checkInt (row + src_x) with
    | none => simp [hi] at h
    | some index =>
      have hindex := checkInt_eq_some _ _ hi
      simp only [hi, Option.some_bind] at h
      subst hindex
      subst hrow
      split at h
      · cases h
      · exact ⟨by omega, h⟩

theorem scaleLoops_spec {α : Type} (src : List α) (width height : Int) (scale_factor : Binary32)
    (out_width out_height : Nat) (scaled : List α)
    (h : scaleLoops src width height scale_factor out_width out_height = some scaled) :
    scaled.length = out_height * out_width
      ∧ ∀ y x, y < out_height → x < out_width →
        ∃ src_y src_x p, sourceCoordinate y scale_factor height = some src_y
          ∧ sourceCoordinate x scale_factor width = some src_x
          ∧ sourcePixel src width src_y src_x = some p
          ∧ scaled[y * out_width + x]? = some p := by
  unfold scaleLoops at h
  simp only [Option.map_eq_some'] at h
  obtain ⟨rows, hrows, rfl⟩ := h
  obtain ⟨hlen, hrow⟩ := tabulateOption_spec _ out_height rows hrows
  have hrowspec : ∀ y, y < out_height → ∃ row src_y, rows[y]? = some row
      ∧ sourceCoordinate y scale_factor height = some src_y
      ∧ row.length = out_width
      ∧ ∀ x, x < out_width → ∃ src_x p, sourceCoordinate x scale_factor width = some src_x
          ∧ sourcePixel src width src_y src_x = some p ∧ row[x]? = some p := by
    intro y hy
    obtain ⟨row, hfy, hget⟩ := hrow y hy
    cases hsy : sourceCoordinate y scale_factor height with
    | none => simp [hsy] at hfy
    | some src_y =>
      simp only [hsy, Option.some_bind] at hfy
      obtain ⟨hrl, hpix⟩ := tabulateOption_spec _ out_width row hfy
      refine ⟨row, src_y, hget, rfl, hrl, fun x hx => ?_⟩
      obtain ⟨p, hfx, hgx⟩ := hpix x hx
      cases hsx : sourceCoordinate x scale_factor width with
      | none => simp [hsx] at hfx
      | some src_x =>
        simp only [hsx, Option.some_bind] at hfx
        exact ⟨src_x, p, rfl, hfx, hgx⟩
  have huni : ∀ r ∈ rows, r.length = out_width := by
    intro r hr
    obtain ⟨y, hy, hyr⟩ := List.getElem_of_mem hr
    obtain ⟨row, _, hget, _, hrl, _⟩ := hrowspec y (by omega)
    rw [List.getElem?_eq_getElem hy, hyr] at hget
    simp only [Option.some.injEq] at hget
    rw [hget]
    exact hrl
  obtain ⟨hflen, hfget⟩ := flatten_uniform out_width rows huni
  refine ⟨by rw [hflen, hlen], fun y x hy hx => ?_⟩
  obtain ⟨row, src_y, hget, hsy, _, hpix⟩ := hrowspec y hy
  obtain ⟨src_x, p, hsx, hp, hgx⟩ := hpix x hx
  refine ⟨src_y, src_x, p, hsy, hsx, hp, ?_⟩
  rw [hfget y x hx, hget]
  exact hgx

theorem ScaleSpriteNearest_pixels {α : Type} (blank : α) (src : List α) (width height : Int)
    (scale_factor : Binary32) (out_width out_height : Int) (scaled : List α)
    (hw : 1 ≤ width) (hh : 1 ≤ height) (hpos : scale_factor.neg = false)
    (h : ScaleSpriteNearest blank src width height scale_factor
      = some (out_width, out_height, some scaled)) :
    scaledSize width scale_factor = some out_width
      ∧ scaledSize height scale_factor = some out_height
      ∧ scaled.length = (out_width * out_height).toNat
      ∧ ∀ x y : Nat, (x : Int) < out_width → (y : Int) < out_height →
        ∃ src_x src_y p, sourceCoordinate x scale_factor width = some src_x
          ∧ sourceCoordinate y scale_factor height = some src_y
          ∧ (0 ≤ src_x ∧ src_x ≤ width - 1) ∧ (0 ≤ src_y ∧ src_y ≤ height - 1)
          ∧ src[(src_y * width + src_x).toNat]? = some p
          ∧ scaled[y * out_width.toNat + x]? = some p := by
  unfold ScaleSpriteNearest at h
  split at h
  · simp at h
  · cases hsw : scaledSize width scale_factor with
    | none => simp [hsw] at h
    | some ow =>
      cases hsh : scaledSize height scale_factor with
      | none => simp [hsw, hsh] at h
      | some oh =>
        simp only [hsw, hsh] at h
        split at h
        · simp at h
        · cases hc : checkInt (ow * oh) with
          | none => simp [hc] at h
          | some count =>
            have hcount := checkInt_eq_some _ _ hc
            simp only [hc] at h
            split at h
            · cases h
            · rename_i hnonneg
              split at h
              · rename_i hneg
                simp only [Option.some.injEq, Prod.mk.injEq] at h
                obtain ⟨rfl, rfl, rfl⟩ := h
                refine ⟨rfl, rfl, by rw [List.length_replicate, hcount], ?_⟩
                intro x y _ hy
                omega
              · rename_i hnotneg
                simp only [Option.map_eq_some', Prod.mk.injEq] at h
                obtain ⟨buf, hloops, rfl, rfl, hbuf⟩ := h
                simp only [Option.some.injEq] at hbuf
                subst hbuf
                obtain ⟨hlen, hpix⟩ := scaleLoops_spec src width height scale_factor _ _ buf hloops
                have hoh : 0 ≤ oh := by omega
                have how : 0 ≤ ow := by
                  by_contra hcon
                  have h1 : ow < 0 := by omega
                  have h2 : 0 < oh := by omega
                  have : ow * oh < 0 := Int.mul_neg_of_neg_of_pos h1 h2
                  omega
                refine ⟨rfl, rfl, ?_, ?_⟩
                · rw [hlen]
                  have : ((oh.toNat * ow.toNat : Nat) : Int)
                      = ow * oh := by
                    push_cast
                    rw [Int.toNat_of_nonneg hoh, Int.toNat_of_nonneg how]
                    ring
                  omega
                · intro x y hx hy
                  obtain ⟨src_y, src_x, p, hsy, hsx, hp, hget⟩ :=
                    hpix y x (by omega) (by omega)
                  obtain ⟨_, hsrc⟩ := sourcePixel_eq_some src width src_y src_x p hp
                  exact ⟨src_x, src_y, p, hsx, hsy,
                    sourceCoordinate_bounds x scale_factor width src_x hpos hw hsx,
                    sourceCoordinate_bounds y scale_factor height src_y hpos hh hsy, hsrc, hget⟩

/-- C16 fails on the code. For a 1x1 source and the scale factor 65536.0f both rounded
dimensions are 65536, not zero, and the element count `out_width * out_height` of line 20 is
`2^32`, which is not an `int`: the call has no defined result, whatever the source holds. For
the scale factor 4294967296.0f the rounded dimension `2^32` is stored in the `int` as 0 and no
buffer is returned. Where a buffer is returned the claim holds: for the scale factor 0.5 on a
4x4 source the output is 2x2 with pixel (0,0) the source pixel (0,0) and pixel (1,1) the source
pixel (2,2), and for every source of width and height at least 1 and every positive scale
factor a returned buffer has `out_width * out_height` pixels, the pixel `(x, y)` being the
source pixel at column `min(trunc(x / scale), W - 1)` and row `min(trunc(y / scale), H - 1)`,
both inside the source. -/
theorem ScaleSpriteNearest_overflow :
    (scaledSize 1 ⟨false, 1, 16⟩ = some 65536
      ∧ checkInt (65536 * 65536) = none
      ∧ ∀ (α : Type) (blank : α) (src : List α),
          ScaleSpriteNearest blank src 1 1 ⟨false, 1, 16⟩ = none)
    ∧ ((Binary32.ofInt 1).bind (fun f => (f.mul ⟨false, 1, 32⟩).bind Binary32.lround)
          = some (2 ^ 32)
      ∧ ScaleSpriteNearest 99 [7] 1 1 ⟨false, 1, 32⟩ = some (0, 0, none))
    ∧ ScaleSpriteNearest 99 (List.range 16) 4 4 ⟨false, 1, -1⟩ = some (2, 2, some [0, 2, 8, 10])
    ∧ ∀ (α : Type) (blank : α) (src : List α) (width height : Int) (scale_factor : Binary32)
        (out_width out_height : Int) (scaled : List α),
        1 ≤ width → 1 ≤ height → scale_factor.neg = false →
        ScaleSpriteNearest blank src width height scale_factor
          = some (out_width, out_height, some scaled) →
        scaledSize width scale_factor = some out_width
          ∧ scaledSize height scale_factor = some out_height
          ∧ scaled.length = (out_width * out_height).toNat
          ∧ ∀ x y : Nat, (x : Int) < out_width → (y : Int) < out_height →
            ∃ src_x src_y p, sourceCoordinate x scale_factor width = some src_x
              ∧ sourceCoordinate y scale_factor height = some src_y
              ∧ (0 ≤ src_x ∧ src_x ≤ width - 1) ∧ (0 ≤ src_y ∧ src_y ≤ height - 1)
              ∧ src[(src_y * width + src_x).toNat]? = some p
              ∧ scaled[y * out_width.toNat + x]? = some p :=
  ⟨⟨by decide, by decide, fun _ _ _ => rfl⟩, ⟨by decide, by decide⟩, by decide,
    fun _ blank src width height scale_factor out_width out_height scaled hw hh hpos h =>
      ScaleSpriteNearest_pixels blank src width height scale_factor out_width out_height scaled
        hw hh hpos h⟩

end OpenTTD
